import Mathlib

set_option maxHeartbeats 1600000

/-!
Shallow embedding of src/src/platform/macos_tahoe/objc_wrapper.c.

Modelling conventions:
* C pointers (uintptr_t addresses) are natural numbers; 0 stands for NULL.
  The code only compares, takes mod 8, and checks bounds on addresses, so
  plain Nat is an exact model of the uintptr_t arithmetic used.
* C doubles are modelled as rationals.  The code only compares doubles
  against the exact constants 0, 1.0 and 16384, and IEEE comparison on
  finite doubles agrees with the rational order, so the model is exact on
  finite inputs (NaN inputs are outside the model).
* The foreign objc_msgSend call is opaque: a shim either rejects (returns
  the NULL / void / empty-rect sentinel without performing the foreign
  call) or performs the foreign call and returns its result.
* Every fprintf-to-stderr line is recorded in a diags list; the C code
  calls fflush(stderr) right after each fprintf, so recorded diagnostics
  are always flushed.
* Every memory dereference a shim performs (reading the ISA word of the
  receiver, copying the NSRect out of rect_ptr) is recorded in a derefs
  list; the value read is supplied as an explicit model input.
-/

/-- Outcome of one validated-gateway shim call: either the shim rejected and
returned the NULL / void / empty-rectangle sentinel without performing the
foreign call, or it performed the foreign objc_msgSend call. -/
inductive GatewayResult where
  | nullRet
  | foreignRet
deriving DecidableEq

/-- Observable behaviour of one shim call: result, the stderr diagnostic
lines it printed (each flushed immediately), and the addresses it
dereferenced. -/
structure ShimOut where
  result : GatewayResult
  diags : List String
  derefs : List Nat
deriving DecidableEq

/-- NSRect flattened to its four double fields (origin.x, origin.y,
size.width, size.height), doubles modelled as rationals. -/
structure NSRect where
  x : ℚ
  y : ℚ
  width : ℚ
  height : ℚ
deriving DecidableEq

/-- Embedding of objc_msgSend_wrapper_string(receiver, selector, utf8_string).
Checks, in source order: NULL receiver, NULL selector, NULL string,
receiver floor 0x1000, receiver 8-alignment, string floor 0x1000 (the
string is not alignment-checked), then performs the foreign call. -/
def objc_msgSend_wrapper_string (receiver selector utf8_string : Nat) : ShimOut :=
  if receiver = 0 then ⟨.nullRet, [("[objc_wrapper_string] NULL receiver")], []⟩
  else if selector = 0 then ⟨.nullRet, [("[objc_wrapper_string] NULL selector")], []⟩
  else if utf8_string = 0 then ⟨.nullRet, [("[objc_wrapper_string] NULL utf8_string")], []⟩
  else if receiver < 4096 then
    ⟨.nullRet, [(("[objc_wrapper_string] Invalid receiver address: ") ++ toString receiver)], []⟩
  else if receiver % 8 ≠ 0 then
    ⟨.nullRet, [(("[objc_wrapper_string] Receiver not aligned: ") ++ toString receiver)], []⟩
  else if utf8_string < 4096 then
    ⟨.nullRet, [(("[objc_wrapper_string] Invalid string address: ") ++ toString utf8_string)], []⟩
  else ⟨.foreignRet, [], []⟩

/-- Embedding of objc_msgSend_wrapper(receiver, selector).  The four early
rejections (NULL receiver, NULL selector, receiver below 0x1000, receiver
misaligned) print nothing.  After they pass, the shim dereferences the
receiver to read its ISA word (isa is the model input for that read),
unconditionally prints one debug line with receiver and ISA, then rejects
when the ISA is NULL, below 0x1000, misaligned, or above 0x7fffffffffff. -/
def objc_msgSend_wrapper (receiver selector isa : Nat) : ShimOut :=
  if receiver = 0 then ⟨.nullRet, [], []⟩
  else if selector = 0 then ⟨.nullRet, [], []⟩
  else if receiver < 4096 then ⟨.nullRet, [], []⟩
  else if receiver % 8 ≠ 0 then ⟨.nullRet, [], []⟩
  else
    let dbg : String :=
      ("[objc_wrapper] receiver: ") ++ toString receiver ++ (", ISA pointer: ") ++ toString isa
    if isa = 0 then ⟨.nullRet, [dbg], [receiver]⟩
    else if isa < 4096 then ⟨.nullRet, [dbg], [receiver]⟩
    else if isa % 8 ≠ 0 then ⟨.nullRet, [dbg], [receiver]⟩
    else if 140737488355327 < isa then ⟨.nullRet, [dbg], [receiver]⟩
    else ⟨.foreignRet, [dbg], [receiver]⟩

/-- Embedding of objc_msgSend_wrapper_rect(receiver, selector, rect_ptr).
rect is the NSRect value stored at rect_ptr (read only after rect_ptr
passes the floor and alignment checks).  Checks, in source order: the
three NULL checks, receiver floor and alignment, rect_ptr floor and
alignment, then the copied rect is range-checked: negative width/height,
then width/height above 16384. -/
def objc_msgSend_wrapper_rect (receiver selector rect_ptr : Nat) (rect : NSRect) : ShimOut :=
  if receiver = 0 then ⟨.nullRet, [("[objc_wrapper_rect] NULL receiver")], []⟩
  else if selector = 0 then ⟨.nullRet, [("[objc_wrapper_rect] NULL selector")], []⟩
  else if rect_ptr = 0 then ⟨.nullRet, [("[objc_wrapper_rect] NULL rect_ptr")], []⟩
  else if receiver < 4096 then
    ⟨.nullRet, [(("[objc_wrapper_rect] Invalid receiver address: ") ++ toString receiver)], []⟩
  else if receiver % 8 ≠ 0 then
    ⟨.nullRet, [(("[objc_wrapper_rect] Receiver not aligned: ") ++ toString receiver)], []⟩
  else if rect_ptr < 4096 then
    ⟨.nullRet, [(("[objc_wrapper_rect] Invalid rect_ptr address: ") ++ toString rect_ptr)], []⟩
  else if rect_ptr % 8 ≠ 0 then
    ⟨.nullRet, [(("[objc_wrapper_rect] rect_ptr not aligned: ") ++ toString rect_ptr)], []⟩
  else if rect.width < 0 ∨ rect.height < 0 then
    ⟨.nullRet, [("[objc_wrapper_rect] Invalid rect dimensions")], [rect_ptr]⟩
  else if 16384 < rect.width ∨ 16384 < rect.height then
    ⟨.nullRet, [("[objc_wrapper_rect] Rect dimensions too large")], [rect_ptr]⟩
  else ⟨.foreignRet, [], [rect_ptr]⟩

/-- Embedding of objc_msgSend_wrapper_4(receiver, selector, rect_ptr, arg2,
arg3, arg4).  Checks, in source order: the three NULL checks, receiver
floor and alignment, rect_ptr floor and alignment, arg2 above 0xFFFFFFFF,
arg3 above 0xFFFFFFFF, then the rect copied from rect_ptr is range-checked
as in the one-rectangle shim.  arg4 (a boolean) is never validated. -/
def objc_msgSend_wrapper_4 (receiver selector rect_ptr arg2 arg3 : Nat) (arg4 : Bool)
    (rect : NSRect) : ShimOut :=
  if receiver = 0 then ⟨.nullRet, [("[objc_wrapper_4] NULL receiver")], []⟩
  else if selector = 0 then ⟨.nullRet, [("[objc_wrapper_4] NULL selector")], []⟩
  else if rect_ptr = 0 then ⟨.nullRet, [("[objc_wrapper_4] NULL rect_ptr")], []⟩
  else if receiver < 4096 then
    ⟨.nullRet, [(("[objc_wrapper_4] Invalid receiver address: ") ++ toString receiver)], []⟩
  else if receiver % 8 ≠ 0 then
    ⟨.nullRet, [(("[objc_wrapper_4] Receiver not aligned: ") ++ toString receiver)], []⟩
  else if rect_ptr < 4096 then
    ⟨.nullRet, [(("[objc_wrapper_4] Invalid rect_ptr address: ") ++ toString rect_ptr)], []⟩
  else if rect_ptr % 8 ≠ 0 then
    ⟨.nullRet, [(("[objc_wrapper_4] rect_ptr not aligned: ") ++ toString rect_ptr)], []⟩
  else if 4294967295 < arg2 then
    ⟨.nullRet, [(("[objc_wrapper_4] arg2 (styleMask) too large: ") ++ toString arg2)], []⟩
  else if 4294967295 < arg3 then
    ⟨.nullRet, [(("[objc_wrapper_4] arg3 (backingType) too large: ") ++ toString arg3)], []⟩
  else if rect.width < 0 ∨ rect.height < 0 then
    ⟨.nullRet, [("[objc_wrapper_4] Invalid rect dimensions")], [rect_ptr]⟩
  else if 16384 < rect.width ∨ 16384 < rect.height then
    ⟨.nullRet, [("[objc_wrapper_4] Rect dimensions too large")], [rect_ptr]⟩
  else
    let _ := arg4
    ⟨.foreignRet, [], [rect_ptr]⟩

/-- Embedding of objc_msgSend_void_1(receiver, selector, arg1).  Null
receiver and selector are rejected; the receiver floor and alignment are
checked together; arg1 is allowed to be NULL, and when it is non-NULL it
must pass the floor and alignment checks. -/
def objc_msgSend_void_1 (receiver selector arg1 : Nat) : ShimOut :=
  if receiver = 0 then ⟨.nullRet, [("[objc_msgSend_void_1] NULL receiver")], []⟩
  else if selector = 0 then ⟨.nullRet, [("[objc_msgSend_void_1] NULL selector")], []⟩
  else if receiver < 4096 ∨ receiver % 8 ≠ 0 then
    ⟨.nullRet, [(("[objc_msgSend_void_1] Invalid receiver: ") ++ toString receiver)], []⟩
  else if arg1 ≠ 0 ∧ (arg1 < 4096 ∨ arg1 % 8 ≠ 0) then
    ⟨.nullRet, [(("[objc_msgSend_void_1] Invalid arg1: ") ++ toString arg1)], []⟩
  else ⟨.foreignRet, [], []⟩

/-- Embedding of objc_msgSend_void_0(receiver, selector). -/
def objc_msgSend_void_0 (receiver selector : Nat) : ShimOut :=
  if receiver = 0 then ⟨.nullRet, [("[objc_msgSend_void_0] NULL receiver")], []⟩
  else if selector = 0 then ⟨.nullRet, [("[objc_msgSend_void_0] NULL selector")], []⟩
  else if receiver < 4096 ∨ receiver % 8 ≠ 0 then
    ⟨.nullRet, [(("[objc_msgSend_void_0] Invalid receiver: ") ++ toString receiver)], []⟩
  else ⟨.foreignRet, [], []⟩

/-- Embedding of objc_msgSend_void_1_bool(receiver, selector, arg1).  The
boolean argument is never validated. -/
def objc_msgSend_void_1_bool (receiver selector : Nat) (arg1 : Bool) : ShimOut :=
  if receiver = 0 then ⟨.nullRet, [("[objc_msgSend_void_1_bool] NULL receiver")], []⟩
  else if selector = 0 then ⟨.nullRet, [("[objc_msgSend_void_1_bool] NULL selector")], []⟩
  else if receiver < 4096 ∨ receiver % 8 ≠ 0 then
    ⟨.nullRet, [(("[objc_msgSend_void_1_bool] Invalid receiver: ") ++ toString receiver)], []⟩
  else
    let _ := arg1
    ⟨.foreignRet, [], []⟩

/-- Embedding of objc_msgSend_wrapper_1_uint(receiver, selector, index).
The unsigned index argument is never validated. -/
def objc_msgSend_wrapper_1_uint (receiver selector index : Nat) : ShimOut :=
  if receiver = 0 then ⟨.nullRet, [("[objc_msgSend_wrapper_1_uint] NULL receiver")], []⟩
  else if selector = 0 then ⟨.nullRet, [("[objc_msgSend_wrapper_1_uint] NULL selector")], []⟩
  else if receiver < 4096 ∨ receiver % 8 ≠ 0 then
    ⟨.nullRet, [(("[objc_msgSend_wrapper_1_uint] Invalid receiver: ") ++ toString receiver)], []⟩
  else
    let _ := index
    ⟨.foreignRet, [], []⟩

/-- Embedding of objc_msgSend_returns_NSRect(receiver, selector).  Only the
two NULL checks are performed; a NULL receiver or selector returns the
empty-rectangle sentinel (modelled by nullRet), and any non-NULL receiver
and selector reach the foreign call with no floor or alignment check. -/
def objc_msgSend_returns_NSRect (receiver selector : Nat) : ShimOut :=
  if receiver = 0 then ⟨.nullRet, [("[objc_msgSend_returns_NSRect] NULL receiver")], []⟩
  else if selector = 0 then ⟨.nullRet, [("[objc_msgSend_returns_NSRect] NULL selector")], []⟩
  else ⟨.foreignRet, [], []⟩

/-- Rejection conditions enforced by the string shim. -/
theorem wrapper_string_reject (r s u : Nat)
    (h : r = 0 ∨ s = 0 ∨ u = 0 ∨ r < 4096 ∨ r % 8 ≠ 0 ∨ u < 4096) :
    (objc_msgSend_wrapper_string r s u).result = GatewayResult.nullRet := by
  unfold objc_msgSend_wrapper_string
  split_ifs <;> first | rfl | (exfalso; omega)

/-- Rejection conditions enforced by the plain wrapper, including its ISA
heuristics. -/
theorem wrapper_reject (r s isa : Nat)
    (h : r = 0 ∨ s = 0 ∨ r < 4096 ∨ r % 8 ≠ 0 ∨
      isa = 0 ∨ isa < 4096 ∨ isa % 8 ≠ 0 ∨ 140737488355327 < isa) :
    (objc_msgSend_wrapper r s isa).result = GatewayResult.nullRet := by
  unfold objc_msgSend_wrapper
  split_ifs <;> first | rfl | (exfalso; omega)

/-- Pointer rejection conditions enforced by the one-rectangle shim. -/
theorem wrapper_rect_reject (r s rp : Nat) (rect : NSRect)
    (h : r = 0 ∨ s = 0 ∨ rp = 0 ∨ r < 4096 ∨ r % 8 ≠ 0 ∨ rp < 4096 ∨ rp % 8 ≠ 0) :
    (objc_msgSend_wrapper_rect r s rp rect).result = GatewayResult.nullRet := by
  unfold objc_msgSend_wrapper_rect
  split_ifs <;> first | rfl | (exfalso; omega)

/-- Pointer rejection conditions enforced by the rectangle-plus-scalars shim. -/
theorem wrapper_4_reject (r s rp a2 a3 : Nat) (b : Bool) (rect : NSRect)
    (h : r = 0 ∨ s = 0 ∨ rp = 0 ∨ r < 4096 ∨ r % 8 ≠ 0 ∨ rp < 4096 ∨ rp % 8 ≠ 0) :
    (objc_msgSend_wrapper_4 r s rp a2 a3 b rect).result = GatewayResult.nullRet := by
  simp only [objc_msgSend_wrapper_4, apply_ite ShimOut.result]
  split_ifs <;> first | rfl | (exfalso; omega)

/-- Rejection conditions enforced by the void one-handle shim. -/
theorem void_1_reject (r s a1 : Nat)
    (h : r = 0 ∨ s = 0 ∨ r < 4096 ∨ r % 8 ≠ 0 ∨ (a1 ≠ 0 ∧ (a1 < 4096 ∨ a1 % 8 ≠ 0))) :
    (objc_msgSend_void_1 r s a1).result = GatewayResult.nullRet := by
  unfold objc_msgSend_void_1
  split_ifs <;> first | rfl | (exfalso; omega)

/-- Rejection conditions enforced by the void no-argument shim. -/
theorem void_0_reject (r s : Nat) (h : r = 0 ∨ s = 0 ∨ r < 4096 ∨ r % 8 ≠ 0) :
    (objc_msgSend_void_0 r s).result = GatewayResult.nullRet := by
  unfold objc_msgSend_void_0
  split_ifs <;> first | rfl | (exfalso; omega)

/-- Rejection conditions enforced by the void boolean-argument shim. -/
theorem void_1_bool_reject (r s : Nat) (b : Bool)
    (h : r = 0 ∨ s = 0 ∨ r < 4096 ∨ r % 8 ≠ 0) :
    (objc_msgSend_void_1_bool r s b).result = GatewayResult.nullRet := by
  unfold objc_msgSend_void_1_bool
  split_ifs <;> first | rfl | (exfalso; omega)

/-- Rejection conditions enforced by the unsigned-argument shim. -/
theorem wrapper_1_uint_reject (r s i : Nat)
    (h : r = 0 ∨ s = 0 ∨ r < 4096 ∨ r % 8 ≠ 0) :
    (objc_msgSend_wrapper_1_uint r s i).result = GatewayResult.nullRet := by
  unfold objc_msgSend_wrapper_1_uint
  split_ifs <;> first | rfl | (exfalso; omega)

/-- The rectangle-returning shim rejects only NULL receiver or selector. -/
theorem returns_NSRect_reject (r s : Nat) (h : r = 0 ∨ s = 0) :
    (objc_msgSend_returns_NSRect r s).result = GatewayResult.nullRet := by
  unfold objc_msgSend_returns_NSRect
  split_ifs <;> first | rfl | (exfalso; omega)

/-- Every address dereferenced by the plain wrapper passed the floor and
alignment validation. -/
theorem wrapper_derefs_valid (r s isa : Nat) :
    ∀ a ∈ (objc_msgSend_wrapper r s isa).derefs, a ≠ 0 ∧ 4096 ≤ a ∧ a % 8 = 0 := by
  intro a ha
  unfold objc_msgSend_wrapper at ha
  split_ifs at ha <;>
    simp only [List.mem_singleton, List.not_mem_nil] at ha <;>
    first | exact ha.elim | omega

/-- Every address dereferenced by the one-rectangle shim passed the floor
and alignment validation. -/
theorem wrapper_rect_derefs_valid (r s rp : Nat) (rect : NSRect) :
    ∀ a ∈ (objc_msgSend_wrapper_rect r s rp rect).derefs, a ≠ 0 ∧ 4096 ≤ a ∧ a % 8 = 0 := by
  intro a ha
  unfold objc_msgSend_wrapper_rect at ha
  split_ifs at ha <;>
    simp only [List.mem_singleton, List.not_mem_nil] at ha <;>
    first | exact ha.elim | omega

/-- Every address dereferenced by the rectangle-plus-scalars shim passed the
floor and alignment validation. -/
theorem wrapper_4_derefs_valid (r s rp a2 a3 : Nat) (b : Bool) (rect : NSRect) :
    ∀ a ∈ (objc_msgSend_wrapper_4 r s rp a2 a3 b rect).derefs,
      a ≠ 0 ∧ 4096 ≤ a ∧ a % 8 = 0 := by
  intro a ha
  simp only [objc_msgSend_wrapper_4, apply_ite ShimOut.derefs] at ha
  split_ifs at ha <;>
    simp only [List.mem_singleton, List.not_mem_nil] at ha <;>
    first | exact ha.elim | omega

/-- C1 counterexample: the rectangle-returning gateway shim does not apply
the address-floor or alignment validation that the claim asserts for every
gateway operation.  A non-NULL receiver at address 8, which is below the
0x1000 floor, reaches the foreign objc_msgSend call instead of being
rejected. -/
theorem C1_low_receiver_reaches_foreign :
    (objc_msgSend_returns_NSRect 8 4096).result = GatewayResult.foreignRet ∧
    (8 : Nat) ≠ 0 ∧ (8 : Nat) < 4096 :=
  ⟨rfl, by omega, by omega⟩

/-- C1 amended: null pointer arguments are rejected by every shim, and each
shim enforces exactly the validations it implements: the receiver
floor/alignment checks in all shims except the rectangle-returning one
(which checks only for NULL); selectors are checked only for NULL; the
string argument for NULL and floor but not alignment; the optional handle
argument of the void one-handle shim, when non-NULL, for floor and
alignment; the plain wrapper additionally rejects a NULL, low, misaligned
or kernel-range ISA word.  Every such rejection returns the null / void /
empty-rectangle sentinel without performing the foreign call, and every
address a shim dereferences is non-NULL, at or above the 0x1000 floor and
8-aligned. -/
theorem C1_pointer_validation :
    (∀ r s u, (r = 0 ∨ s = 0 ∨ u = 0 ∨ r < 4096 ∨ r % 8 ≠ 0 ∨ u < 4096) →
      (objc_msgSend_wrapper_string r s u).result = GatewayResult.nullRet) ∧
    (∀ r s isa,
      (r = 0 ∨ s = 0 ∨ r < 4096 ∨ r % 8 ≠ 0 ∨
        isa = 0 ∨ isa < 4096 ∨ isa % 8 ≠ 0 ∨ 140737488355327 < isa) →
      (objc_msgSend_wrapper r s isa).result = GatewayResult.nullRet) ∧
    (∀ r s rp rect, (r = 0 ∨ s = 0 ∨ rp = 0 ∨ r < 4096 ∨ r % 8 ≠ 0 ∨ rp < 4096 ∨ rp % 8 ≠ 0) →
      (objc_msgSend_wrapper_rect r s rp rect).result = GatewayResult.nullRet) ∧
    (∀ r s rp a2 a3 b rect,
      (r = 0 ∨ s = 0 ∨ rp = 0 ∨ r < 4096 ∨ r % 8 ≠ 0 ∨ rp < 4096 ∨ rp % 8 ≠ 0) →
      (objc_msgSend_wrapper_4 r s rp a2 a3 b rect).result = GatewayResult.nullRet) ∧
    (∀ r s a1, (r = 0 ∨ s = 0 ∨ r < 4096 ∨ r % 8 ≠ 0 ∨ (a1 ≠ 0 ∧ (a1 < 4096 ∨ a1 % 8 ≠ 0))) →
      (objc_msgSend_void_1 r s a1).result = GatewayResult.nullRet) ∧
    (∀ r s, (r = 0 ∨ s = 0 ∨ r < 4096 ∨ r % 8 ≠ 0) →
      (objc_msgSend_void_0 r s).result = GatewayResult.nullRet) ∧
    (∀ r s b, (r = 0 ∨ s = 0 ∨ r < 4096 ∨ r % 8 ≠ 0) →
      (objc_msgSend_void_1_bool r s b).result = GatewayResult.nullRet) ∧
    (∀ r s i, (r = 0 ∨ s = 0 ∨ r < 4096 ∨ r % 8 ≠ 0) →
      (objc_msgSend_wrapper_1_uint r s i).result = GatewayResult.nullRet) ∧
    (∀ r s, (r = 0 ∨ s = 0) →
      (objc_msgSend_returns_NSRect r s).result = GatewayResult.nullRet) ∧
    (∀ r s isa, ∀ a ∈ (objc_msgSend_wrapper r s isa).derefs,
      a ≠ 0 ∧ 4096 ≤ a ∧ a % 8 = 0) ∧
    (∀ r s rp rect, ∀ a ∈ (objc_msgSend_wrapper_rect r s rp rect).derefs,
      a ≠ 0 ∧ 4096 ≤ a ∧ a % 8 = 0) ∧
    (∀ r s rp a2 a3 b rect, ∀ a ∈ (objc_msgSend_wrapper_4 r s rp a2 a3 b rect).derefs,
      a ≠ 0 ∧ 4096 ≤ a ∧ a % 8 = 0) :=
  ⟨wrapper_string_reject, wrapper_reject, wrapper_rect_reject, wrapper_4_reject,
    void_1_reject, void_0_reject, void_1_bool_reject, wrapper_1_uint_reject,
    returns_NSRect_reject, wrapper_derefs_valid, wrapper_rect_derefs_valid,
    wrapper_4_derefs_valid⟩

/-- C1 amended witness: a NULL auxiliary-handle receiver is rejected by the
void one-handle shim. -/
theorem C1_pointer_validation_witness :
    (objc_msgSend_void_1 0 4096 4096).result = GatewayResult.nullRet :=
  C1_pointer_validation.2.2.2.2.1 0 4096 4096 (Or.inl rfl)

/-- The one-rectangle shim rejects out-of-range rectangle dimensions. -/
theorem wrapper_rect_range_reject (r s rp : Nat) (rect : NSRect)
    (h : rect.width < 0 ∨ rect.height < 0 ∨ 16384 < rect.width ∨ 16384 < rect.height) :
    (objc_msgSend_wrapper_rect r s rp rect).result = GatewayResult.nullRet := by
  unfold objc_msgSend_wrapper_rect
  split_ifs <;> first | rfl | (exfalso; rcases h with h | h | h | h <;> simp_all)

/-- The rectangle-plus-scalars shim rejects out-of-range rectangle
dimensions. -/
theorem wrapper_4_range_reject (r s rp a2 a3 : Nat) (b : Bool) (rect : NSRect)
    (h : rect.width < 0 ∨ rect.height < 0 ∨ 16384 < rect.width ∨ 16384 < rect.height) :
    (objc_msgSend_wrapper_4 r s rp a2 a3 b rect).result = GatewayResult.nullRet := by
  simp only [objc_msgSend_wrapper_4, apply_ite ShimOut.result]
  split_ifs <;> first | rfl | (exfalso; rcases h with h | h | h | h <;> simp_all)

/-- C2: both rectangle-accepting shims reject any rectangle with a negative
width or height or a width or height above 16384, returning the NULL
sentinel without performing the foreign call, regardless of the other
arguments. -/
theorem C2_rect_range_rejected :
    ∀ (r s rp a2 a3 : Nat) (b : Bool) (rect : NSRect),
      (rect.width < 0 ∨ rect.height < 0 ∨ 16384 < rect.width ∨ 16384 < rect.height) →
      (objc_msgSend_wrapper_rect r s rp rect).result = GatewayResult.nullRet ∧
      (objc_msgSend_wrapper_4 r s rp a2 a3 b rect).result = GatewayResult.nullRet :=
  fun r s rp a2 a3 b rect h =>
    ⟨wrapper_rect_range_reject r s rp rect h, wrapper_4_range_reject r s rp a2 a3 b rect h⟩

/-- C2 witness: a rectangle of width -1 is rejected by both
rectangle-accepting shims. -/
theorem C2_rect_range_rejected_witness :
    (objc_msgSend_wrapper_rect 4096 4096 4096 ⟨0, 0, -1, 100⟩).result = GatewayResult.nullRet ∧
    (objc_msgSend_wrapper_4 4096 4096 4096 0 2 false ⟨0, 0, -1, 100⟩).result =
      GatewayResult.nullRet :=
  C2_rect_range_rejected 4096 4096 4096 0 2 false ⟨0, 0, -1, 100⟩ (Or.inl (by norm_num))

/-- C10: the rectangle-plus-three-scalar shim rejects any call in which one
of its two unsigned scalar arguments exceeds 0xFFFFFFFF, returning NULL
without the foreign call and emitting a diagnostic. -/
theorem C10_scalar_bound_rejected :
    ∀ (r s rp a2 a3 : Nat) (b : Bool) (rect : NSRect),
      (4294967295 < a2 ∨ 4294967295 < a3) →
      (objc_msgSend_wrapper_4 r s rp a2 a3 b rect).result = GatewayResult.nullRet ∧
      (objc_msgSend_wrapper_4 r s rp a2 a3 b rect).diags ≠ [] := by
  intro r s rp a2 a3 b rect h
  constructor
  · simp only [objc_msgSend_wrapper_4, apply_ite ShimOut.result]
    split_ifs <;> first | rfl | (exfalso; omega)
  · simp only [objc_msgSend_wrapper_4, apply_ite ShimOut.diags]
    split_ifs <;> first | (exfalso; omega) | simp

/-- C10 witness: arg2 = 2^32 is rejected with a diagnostic. -/
theorem C10_scalar_bound_rejected_witness :
    (objc_msgSend_wrapper_4 4096 4096 4096 4294967296 2 true ⟨0, 0, 800, 600⟩).result =
      GatewayResult.nullRet ∧
    (objc_msgSend_wrapper_4 4096 4096 4096 4294967296 2 true ⟨0, 0, 800, 600⟩).diags ≠ [] :=
  C10_scalar_bound_rejected 4096 4096 4096 4294967296 2 true ⟨0, 0, 800, 600⟩ (by omega)

/-- Every rejection of the string shim carries a diagnostic. -/
theorem wrapper_string_diag (r s u : Nat)
    (h : (objc_msgSend_wrapper_string r s u).result = GatewayResult.nullRet) :
    (objc_msgSend_wrapper_string r s u).diags ≠ [] := by
  unfold objc_msgSend_wrapper_string at h ⊢
  split_ifs at h ⊢ <;> simp_all

/-- Every rejection of the one-rectangle shim carries a diagnostic. -/
theorem wrapper_rect_diag (r s rp : Nat) (rect : NSRect)
    (h : (objc_msgSend_wrapper_rect r s rp rect).result = GatewayResult.nullRet) :
    (objc_msgSend_wrapper_rect r s rp rect).diags ≠ [] := by
  unfold objc_msgSend_wrapper_rect at h ⊢
  split_ifs at h ⊢ <;> simp_all

/-- Every rejection of the rectangle-plus-scalars shim carries a
diagnostic. -/
theorem wrapper_4_diag (r s rp a2 a3 : Nat) (b : Bool) (rect : NSRect)
    (h : (objc_msgSend_wrapper_4 r s rp a2 a3 b rect).result = GatewayResult.nullRet) :
    (objc_msgSend_wrapper_4 r s rp a2 a3 b rect).diags ≠ [] := by
  simp only [objc_msgSend_wrapper_4, apply_ite ShimOut.result] at h
  simp only [objc_msgSend_wrapper_4, apply_ite ShimOut.diags]
  split_ifs at h ⊢ <;> simp_all

/-- Every rejection of the void one-handle shim carries a diagnostic. -/
theorem void_1_diag (r s a1 : Nat)
    (h : (objc_msgSend_void_1 r s a1).result = GatewayResult.nullRet) :
    (objc_msgSend_void_1 r s a1).diags ≠ [] := by
  unfold objc_msgSend_void_1 at h ⊢
  split_ifs at h ⊢ <;> simp_all

/-- Every rejection of the void no-argument shim carries a diagnostic. -/
theorem void_0_diag (r s : Nat)
    (h : (objc_msgSend_void_0 r s).result = GatewayResult.nullRet) :
    (objc_msgSend_void_0 r s).diags ≠ [] := by
  unfold objc_msgSend_void_0 at h ⊢
  split_ifs at h ⊢ <;> simp_all

/-- Every rejection of the void boolean-argument shim carries a
diagnostic. -/
theorem void_1_bool_diag (r s : Nat) (b : Bool)
    (h : (objc_msgSend_void_1_bool r s b).result = GatewayResult.nullRet) :
    (objc_msgSend_void_1_bool r s b).diags ≠ [] := by
  unfold objc_msgSend_void_1_bool at h ⊢
  split_ifs at h ⊢ <;> simp_all

/-- Every rejection of the unsigned-argument shim carries a diagnostic. -/
theorem wrapper_1_uint_diag (r s i : Nat)
    (h : (objc_msgSend_wrapper_1_uint r s i).result = GatewayResult.nullRet) :
    (objc_msgSend_wrapper_1_uint r s i).diags ≠ [] := by
  unfold objc_msgSend_wrapper_1_uint at h ⊢
  split_ifs at h ⊢ <;> simp_all

/-- Every rejection of the rectangle-returning shim carries a diagnostic. -/
theorem returns_NSRect_diag (r s : Nat)
    (h : (objc_msgSend_returns_NSRect r s).result = GatewayResult.nullRet) :
    (objc_msgSend_returns_NSRect r s).diags ≠ [] := by
  unfold objc_msgSend_returns_NSRect at h ⊢
  split_ifs at h ⊢ <;> simp_all

/-- The plain wrapper prints nothing on its early rejection paths. -/
theorem wrapper_early_silent (r s isa : Nat)
    (h : r = 0 ∨ s = 0 ∨ r < 4096 ∨ r % 8 ≠ 0) :
    (objc_msgSend_wrapper r s isa).diags = [] := by
  unfold objc_msgSend_wrapper
  split_ifs <;> first | rfl | (exfalso; omega)

/-- Once the early receiver and selector checks pass, the plain wrapper has
printed its debug line, so ISA-based rejections are not silent. -/
theorem wrapper_isa_diag (r s isa : Nat) (h1 : r ≠ 0) (h2 : s ≠ 0)
    (h3 : 4096 ≤ r) (h4 : r % 8 = 0)
    (h : (objc_msgSend_wrapper r s isa).result = GatewayResult.nullRet) :
    (objc_msgSend_wrapper r s isa).diags ≠ [] := by
  unfold objc_msgSend_wrapper at h ⊢
  split_ifs at h ⊢ <;> first | omega | simp_all

/-- C4 counterexample: the plain no-argument wrapper rejects a NULL receiver
silently, with an empty diagnostic list, so not every rejection path emits
a diagnostic. -/
theorem C4_silent_rejection :
    (objc_msgSend_wrapper 0 4096 4096).result = GatewayResult.nullRet ∧
    (objc_msgSend_wrapper 0 4096 4096).diags = [] :=
  ⟨rfl, rfl⟩

/-- C4 amended: every rejection path of every gateway shim except the plain
no-argument wrapper emits at least one diagnostic line to the unbuffered
error stream (each fprintf is followed by an fflush); the plain wrapper
rejects NULL, sub-floor or misaligned receivers and NULL selectors
silently, while its ISA-based rejections are covered only by the
unconditional debug line it prints, which names the operation and shows
the receiver and ISA values. -/
theorem C4_rejection_diagnostics :
    (∀ r s u, (objc_msgSend_wrapper_string r s u).result = GatewayResult.nullRet →
      (objc_msgSend_wrapper_string r s u).diags ≠ []) ∧
    (∀ r s rp rect, (objc_msgSend_wrapper_rect r s rp rect).result = GatewayResult.nullRet →
      (objc_msgSend_wrapper_rect r s rp rect).diags ≠ []) ∧
    (∀ r s rp a2 a3 b rect,
      (objc_msgSend_wrapper_4 r s rp a2 a3 b rect).result = GatewayResult.nullRet →
      (objc_msgSend_wrapper_4 r s rp a2 a3 b rect).diags ≠ []) ∧
    (∀ r s a1, (objc_msgSend_void_1 r s a1).result = GatewayResult.nullRet →
      (objc_msgSend_void_1 r s a1).diags ≠ []) ∧
    (∀ r s, (objc_msgSend_void_0 r s).result = GatewayResult.nullRet →
      (objc_msgSend_void_0 r s).diags ≠ []) ∧
    (∀ r s b, (objc_msgSend_void_1_bool r s b).result = GatewayResult.nullRet →
      (objc_msgSend_void_1_bool r s b).diags ≠ []) ∧
    (∀ r s i, (objc_msgSend_wrapper_1_uint r s i).result = GatewayResult.nullRet →
      (objc_msgSend_wrapper_1_uint r s i).diags ≠ []) ∧
    (∀ r s, (objc_msgSend_returns_NSRect r s).result = GatewayResult.nullRet →
      (objc_msgSend_returns_NSRect r s).diags ≠ []) ∧
    (∀ r s isa, (r = 0 ∨ s = 0 ∨ r < 4096 ∨ r % 8 ≠ 0) →
      (objc_msgSend_wrapper r s isa).diags = []) ∧
    (∀ r s isa, r ≠ 0 → s ≠ 0 → 4096 ≤ r → r % 8 = 0 →
      (objc_msgSend_wrapper r s isa).result = GatewayResult.nullRet →
      (objc_msgSend_wrapper r s isa).diags ≠ []) :=
  ⟨wrapper_string_diag, wrapper_rect_diag, wrapper_4_diag, void_1_diag, void_0_diag,
    void_1_bool_diag, wrapper_1_uint_diag, returns_NSRect_diag, wrapper_early_silent,
    wrapper_isa_diag⟩

/-- C4 amended witness: a NULL receiver passed to the string shim is
rejected with a diagnostic. -/
theorem C4_rejection_diagnostics_witness :
    (objc_msgSend_wrapper_string 0 4096 4096).diags ≠ [] :=
  C4_rejection_diagnostics.1 0 4096 4096 rfl

/-!
Dynamic type synthesis (createWindowDelegate, createAnimationTimer,
createTahoeView) over a model of the Objective-C runtime registry.

Model assumptions, matching the host runtime: sel_registerName never
returns NULL for the literal selector names used here, and alloc/init on a
registered class always succeed, so the corresponding NULL-check branches
of the C code are never taken in the model.  objc_allocateClassPair
succeeds exactly when the class name is not yet registered (in every call
site it is invoked only after a failed lookup, so it succeeds);
class_addMethod reports failure exactly when the (class, selector) pair is
already installed; objc_setAssociatedObject with OBJC_ASSOCIATION_ASSIGN
prepends to a side table keyed by (instance, key).
-/

/-- Process-wide Objective-C runtime state visible to this layer: the
registered class names, the installed (class, selector) method pairs, a
counter for fresh instance addresses, and the associated-object side
table mapping (instance, key) to the stored value. -/
structure ObjCState where
  registered : List String
  methods : List (String × String)
  nextInst : Nat
  assoc : List (Nat × String × Nat)
deriving DecidableEq

/-- Observable runtime-interaction events of one creation call. -/
inductive TEvent where
  | lookup (name : String) (found : Bool)
  | allocClass (name : String)
  | addMethod (cls sel : String) (ok : Bool)
  | registerClass (name : String)
  | allocInst (cls : String)
  | setAssoc (inst : Nat) (key : String) (val : Nat)
  | scheduleTimer (interval : ℚ) (target : Nat) (token : Nat)
  | diag (msg : String)
deriving DecidableEq

/-- Result of one creation call: returned handle (none models NULL), the
state after the call, and the trace of runtime events in order. -/
structure CreateOut where
  res : Option Nat
  st : ObjCState
  tr : List TEvent
deriving DecidableEq

/-- Model of class_addMethod: fails exactly when the (class, selector)
pair is already installed, otherwise installs it. -/
def classAddMethod (s : ObjCState) (cls sel : String) : Bool × ObjCState :=
  if (cls, sel) ∈ s.methods then (false, s)
  else (true, { s with methods := (cls, sel) :: s.methods })

/-- Model of objc_registerClassPair. -/
def registerClassPair (s : ObjCState) (name : String) : ObjCState :=
  { s with registered := name :: s.registered }

/-- Model of objc_setAssociatedObject with OBJC_ASSOCIATION_ASSIGN. -/
def setAssociatedObject (s : ObjCState) (inst : Nat) (key : String) (v : Nat) : ObjCState :=
  { s with assoc := (inst, key, v) :: s.assoc }

/-- Model of objc_getAssociatedObject over the side table. -/
def getAssociatedObject (assoc : List (Nat × String × Nat)) (inst : Nat)
    (key : String) : Option Nat :=
  match assoc.find? (fun e => e.1 == inst && e.2.1 == key) with
  | some e => some e.2.2
  | none => none

/-- Sequential method installation with abort-on-failure, shared by
createWindowDelegate and createTahoeView: each selector is resolved and
installed via class_addMethod; the first failure stops installation,
emits the corresponding Failed-to-add diagnostic, and reports failure. -/
def installMethods (tag cls : String) (s : ObjCState) : List String → Bool × ObjCState × List TEvent
  | [] => (true, s, [])
  | sel :: rest =>
    match classAddMethod s cls sel with
    | (true, s1) =>
      let r := installMethods tag cls s1 rest
      (r.1, r.2.1, TEvent.addMethod cls sel true :: r.2.2)
    | (false, s1) =>
      (false, s1,
        [TEvent.addMethod cls sel false,
          TEvent.diag (tag ++ (" Failed to add ") ++ sel ++ (" method"))])

/-- Shared tail of the creators: alloc and init an instance of the (now
registered) class and attach the context token under the windowPtr key
via the associated-object store. -/
def instFinish (s : ObjCState) (wptr : Nat) (cls : String) (pre : List TEvent) : CreateOut :=
  let i := s.nextInst + 1
  ⟨some i, setAssociatedObject { s with nextInst := i } i ("windowPtr") wptr,
    pre ++ [TEvent.allocInst cls, TEvent.setAssoc i ("windowPtr") wptr]⟩

/-- The three delegate callback selectors installed on
TahoeWindowDelegate, in source order. -/
def delegateSelectors : List String :=
  [("windowDidResize:"), ("windowDidBecomeKey:"), ("windowDidResignKey:")]

/-- The seven view callback selectors installed on TahoeView, in source
order. -/
def viewSelectors : List String :=
  [("acceptsFirstResponder"), ("mouseDown:"), ("mouseUp:"), ("mouseDragged:"),
    ("mouseMoved:"), ("keyDown:"), ("keyUp:")]

/-- Embedding of createWindowDelegate(window_ptr): reject a zero token;
look the class up by name and, when absent, derive it from NSObject,
install the three delegate methods aborting the whole creation on any
installation failure, and register the class; finally allocate an
instance and attach the token. -/
def createWindowDelegate (s : ObjCState) (wptr : Nat) : CreateOut :=
  if wptr = 0 then ⟨none, s, [TEvent.diag ("[createWindowDelegate] NULL window_ptr")]⟩
  else if ("TahoeWindowDelegate") ∈ s.registered then
    instFinish s wptr ("TahoeWindowDelegate") [TEvent.lookup ("TahoeWindowDelegate") true]
  else if ("NSObject") ∈ s.registered then
    match installMethods ("[createWindowDelegate]") ("TahoeWindowDelegate") s
        delegateSelectors with
    | (ok, s1, evs) =>
      let ev := TEvent.lookup ("TahoeWindowDelegate") false ::
        TEvent.allocClass ("TahoeWindowDelegate") :: evs
      if ok then
        instFinish (registerClassPair s1 ("TahoeWindowDelegate")) wptr ("TahoeWindowDelegate")
          (ev ++ [TEvent.registerClass ("TahoeWindowDelegate"),
            TEvent.diag ("[createWindowDelegate] Created TahoeWindowDelegate class")])
      else ⟨none, s1, ev⟩
  else
    ⟨none, s, [TEvent.lookup ("TahoeWindowDelegate") false,
      TEvent.diag ("[createWindowDelegate] NSObject class not found")]⟩

/-- Embedding of createTahoeView(window_ptr): same state machine as the
delegate, deriving from NSView and installing the seven view selectors
(acceptsFirstResponder overrides the capability query). -/
def createTahoeView (s : ObjCState) (wptr : Nat) : CreateOut :=
  if wptr = 0 then ⟨none, s, [TEvent.diag ("[createTahoeView] NULL window_ptr")]⟩
  else if ("TahoeView") ∈ s.registered then
    instFinish s wptr ("TahoeView") [TEvent.lookup ("TahoeView") true]
  else if ("NSView") ∈ s.registered then
    match installMethods ("[createTahoeView]") ("TahoeView") s viewSelectors with
    | (ok, s1, evs) =>
      let ev := TEvent.lookup ("TahoeView") false :: TEvent.allocClass ("TahoeView") :: evs
      if ok then
        instFinish (registerClassPair s1 ("TahoeView")) wptr ("TahoeView")
          (ev ++ [TEvent.registerClass ("TahoeView"),
            TEvent.diag ("[createTahoeView] Created TahoeView class")])
      else ⟨none, s1, ev⟩
  else
    ⟨none, s, [TEvent.lookup ("TahoeView") false,
      TEvent.diag ("[createTahoeView] NSView class not found")]⟩

/-- Tail of createAnimationTimer after the TahoeTimerTarget class exists:
alloc and init the target instance, attach the token, wrap the token in
an NSNumber as the timer userInfo, attempt to add the tahoeTimerTick:
method (a failure is diagnosed and tolerated, not an abort), and schedule
the repeating NSTimer. -/
def timerAfterClass (s : ObjCState) (wptr : Nat) (interval : ℚ) (pre : List TEvent) : CreateOut :=
  let i := s.nextInst + 1
  let s2 := setAssociatedObject { s with nextInst := i } i ("windowPtr") wptr
  let ev1 := pre ++ [TEvent.allocInst ("TahoeTimerTarget"), TEvent.setAssoc i ("windowPtr") wptr]
  if ("NSNumber") ∈ s2.registered then
    match classAddMethod s2 ("TahoeTimerTarget") ("tahoeTimerTick:") with
    | (ok, s3) =>
      let ev2 := ev1 ++
        [TEvent.addMethod ("TahoeTimerTarget") ("tahoeTimerTick:") ok,
          TEvent.diag (if ok then ("[createAnimationTimer] Added tahoeTimerTick: method")
            else
              ("[createAnimationTimer] Method tahoeTimerTick: already exists or failed to add (continuing)"))]
      if ("NSTimer") ∈ s3.registered then
        let t := s3.nextInst + 1
        ⟨some t, { s3 with nextInst := t },
          ev2 ++ [TEvent.scheduleTimer interval i wptr]⟩
      else ⟨none, s3, ev2 ++ [TEvent.diag ("[createAnimationTimer] NSTimer class not found")]⟩
  else ⟨none, s2, ev1 ++ [TEvent.diag ("[createAnimationTimer] NSNumber class not found")]⟩

/-- Embedding of createAnimationTimer(window_ptr, interval): reject a zero
token, then an interval outside (0, 1.0]; look up TahoeTimerTarget and,
when absent, derive it from NSObject and register it immediately (no
methods are installed during creation); then run the shared tail. -/
def createAnimationTimer (s : ObjCState) (wptr : Nat) (interval : ℚ) : CreateOut :=
  if wptr = 0 then ⟨none, s, [TEvent.diag ("[createAnimationTimer] NULL window_ptr")]⟩
  else if interval ≤ 0 ∨ 1 < interval then
    ⟨none, s, [TEvent.diag ("[createAnimationTimer] Invalid interval (expected 0 < interval <= 1.0)")]⟩
  else if ("TahoeTimerTarget") ∈ s.registered then
    timerAfterClass s wptr interval [TEvent.lookup ("TahoeTimerTarget") true]
  else if ("NSObject") ∈ s.registered then
    timerAfterClass (registerClassPair s ("TahoeTimerTarget")) wptr interval
      [TEvent.lookup ("TahoeTimerTarget") false, TEvent.allocClass ("TahoeTimerTarget"),
        TEvent.registerClass ("TahoeTimerTarget"),
        TEvent.diag ("[createAnimationTimer] Created TahoeTimerTarget class")]
  else
    ⟨none, s, [TEvent.lookup ("TahoeTimerTarget") false,
      TEvent.diag ("[createAnimationTimer] NSObject class not found")]⟩

/-- Class-allocation, method-installation and class-registration events:
the installation steps that an idempotent second synthesis call is
expected to skip. -/
def isInstallEvent : TEvent → Bool
  | TEvent.allocClass _ => true
  | TEvent.addMethod _ _ _ => true
  | TEvent.registerClass _ => true
  | _ => false

/-- Class-allocation and class-registration events only. -/
def isClassCreationEvent : TEvent → Bool
  | TEvent.allocClass _ => true
  | TEvent.registerClass _ => true
  | _ => false

/-- class_addMethod never touches the registered-class list. -/
theorem classAddMethod_registered (s : ObjCState) (c m : String) :
    ((classAddMethod s c m).2).registered = s.registered := by
  unfold classAddMethod
  split <;> rfl

/-- Sequential installation never touches the registered-class list. -/
theorem installMethods_registered (tag cls : String) :
    ∀ (L : List String) (s : ObjCState),
      ((installMethods tag cls s L).2.1).registered = s.registered := by
  intro L
  induction L with
  | nil => intro s; rfl
  | cons a rest ih =>
    intro s
    unfold installMethods
    rcases hAM : classAddMethod s cls a with ⟨ok, s1⟩
    have hreg : s1.registered = s.registered := by
      have := classAddMethod_registered s cls a
      rw [hAM] at this
      exact this
    cases ok <;> simp [ih, hreg]

/-- When every selector in the list is fresh for the class and the
selectors are distinct, sequential installation succeeds. -/
theorem installMethods_ok_of_fresh (tag cls : String) :
    ∀ (L : List String) (s : ObjCState),
      (∀ m ∈ L, (cls, m) ∉ s.methods) → L.Nodup →
      (installMethods tag cls s L).1 = true := by
  intro L
  induction L with
  | nil => intro s _ _; rfl
  | cons a rest ih =>
    intro s hfresh hnd
    unfold installMethods
    have hmem : (cls, a) ∉ s.methods := hfresh a (List.mem_cons_self a rest)
    rcases hAM : classAddMethod s cls a with ⟨ok, s1⟩
    have hok : ok = true ∧ s1 = { s with methods := (cls, a) :: s.methods } := by
      unfold classAddMethod at hAM
      rw [if_neg hmem] at hAM
      exact ⟨(Prod.mk.injEq _ _ _ _).mp hAM |>.1.symm, (Prod.mk.injEq _ _ _ _).mp hAM |>.2.symm⟩
    rcases hok with ⟨hok, hs1⟩
    subst hok
    simp only []
    apply ih
    · intro m hm
      have hne : m ≠ a := by
        intro hEq
        subst hEq
        exact (List.nodup_cons.mp hnd).1 hm
      rw [hs1]
      simp only [List.mem_cons]
      rintro (hpair | hpair)
      · exact hne ((Prod.mk.injEq _ _ _ _).mp hpair).2
      · exact hfresh m (List.mem_cons_of_mem a hm) hpair
    · exact (List.nodup_cons.mp hnd).2

/-- A failed installation event in the trace means the installation
aborted and a Failed-to-add diagnostic was emitted. -/
theorem installMethods_mem_false (tag cls : String) :
    ∀ (L : List String) (s : ObjCState) (c m : String),
      TEvent.addMethod c m false ∈ (installMethods tag cls s L).2.2 →
      (installMethods tag cls s L).1 = false ∧
        ∃ d, TEvent.diag d ∈ (installMethods tag cls s L).2.2 := by
  intro L
  induction L with
  | nil => intro s c m hmem; exact absurd hmem (List.not_mem_nil _)
  | cons a rest ih =>
    intro s c m hmem
    unfold installMethods at hmem ⊢
    rcases hAM : classAddMethod s cls a with ⟨ok, s1⟩
    rw [hAM] at hmem
    cases ok with
    | false =>
      refine ⟨rfl, tag ++ (" Failed to add ") ++ a ++ (" method"), ?_⟩
      simp
    | true =>
      simp only [List.mem_cons] at hmem
      rcases hmem with hmem | hmem
      · exact absurd hmem (by simp)
      · rcases ih s1 c m hmem with ⟨h1, d, h2⟩
        exact ⟨h1, d, List.mem_cons_of_mem _ h2⟩

/-- Two successive delegate creations from a state where the class is not
yet registered: both succeed, exactly one registration, and the second
call performs no installation step. -/
theorem delegate_idempotent (s : ObjCState) (w : Nat) (hw : w ≠ 0)
    (hNSO : ("NSObject") ∈ s.registered)
    (hTWD : ("TahoeWindowDelegate") ∉ s.registered)
    (hM : ∀ m, (("TahoeWindowDelegate"), m) ∉ s.methods) :
    (createWindowDelegate s w).res.isSome ∧
    (createWindowDelegate (createWindowDelegate s w).st w).res.isSome ∧
    ((createWindowDelegate (createWindowDelegate s w).st w).st.registered.count
      ("TahoeWindowDelegate")) = 1 ∧
    ∀ e ∈ (createWindowDelegate (createWindowDelegate s w).st w).tr,
      isInstallEvent e = false := by
  have hOK : (installMethods ("[createWindowDelegate]") ("TahoeWindowDelegate") s
      delegateSelectors).1 = true := by
    apply installMethods_ok_of_fresh
    · intro m _
      exact hM m
    · decide
  have hregIM : ((installMethods ("[createWindowDelegate]") ("TahoeWindowDelegate") s
      delegateSelectors).2.1).registered = s.registered :=
    installMethods_registered _ _ delegateSelectors s
  rcases hIM : installMethods ("[createWindowDelegate]") ("TahoeWindowDelegate") s
      delegateSelectors with ⟨ok, s1, evs⟩
  rw [hIM] at hOK hregIM
  simp only [] at hOK hregIM
  subst hOK
  have h1 : createWindowDelegate s w =
      instFinish (registerClassPair s1 ("TahoeWindowDelegate")) w ("TahoeWindowDelegate")
        ((TEvent.lookup ("TahoeWindowDelegate") false ::
            TEvent.allocClass ("TahoeWindowDelegate") :: evs) ++
          [TEvent.registerClass ("TahoeWindowDelegate"),
            TEvent.diag ("[createWindowDelegate] Created TahoeWindowDelegate class")]) := by
    simp only [createWindowDelegate, if_neg hw, if_neg hTWD, if_pos hNSO, hIM, if_true]
  have hst1 : (createWindowDelegate s w).st.registered =
      ("TahoeWindowDelegate") :: s.registered := by
    rw [h1]
    simp [instFinish, registerClassPair, setAssociatedObject, hregIM]
  have hmem2 : ("TahoeWindowDelegate") ∈ (createWindowDelegate s w).st.registered := by
    rw [hst1]
    exact List.mem_cons_self _ _
  have h2gen : ∀ t : ObjCState, ("TahoeWindowDelegate") ∈ t.registered →
      createWindowDelegate t w =
        instFinish t w ("TahoeWindowDelegate") [TEvent.lookup ("TahoeWindowDelegate") true] := by
    intro t ht
    simp only [createWindowDelegate, if_neg hw, if_pos ht]
  have h2 := h2gen (createWindowDelegate s w).st hmem2
  refine ⟨?_, ?_, ?_, ?_⟩
  · rw [h1]
    rfl
  · rw [h2]
    rfl
  · rw [h2]
    have : (instFinish (createWindowDelegate s w).st w ("TahoeWindowDelegate")
        [TEvent.lookup ("TahoeWindowDelegate") true]).st.registered =
        (createWindowDelegate s w).st.registered := by
      simp [instFinish, setAssociatedObject]
    rw [this, hst1]
    rw [List.count_cons_self]
    rw [List.count_eq_zero.mpr hTWD]
  · rw [h2]
    intro e he
    simp only [instFinish, List.cons_append, List.nil_append, List.mem_cons,
      List.not_mem_nil, or_false] at he
    rcases he with rfl | rfl | rfl <;> rfl

/-- Two successive view creations from a state where the class is not yet
registered: both succeed, exactly one registration, and the second call
performs no installation step. -/
theorem view_idempotent (s : ObjCState) (w : Nat) (hw : w ≠ 0)
    (hNSV : ("NSView") ∈ s.registered)
    (hTV : ("TahoeView") ∉ s.registered)
    (hM : ∀ m, (("TahoeView"), m) ∉ s.methods) :
    (createTahoeView s w).res.isSome ∧
    (createTahoeView (createTahoeView s w).st w).res.isSome ∧
    ((createTahoeView (createTahoeView s w).st w).st.registered.count ("TahoeView")) = 1 ∧
    ∀ e ∈ (createTahoeView (createTahoeView s w).st w).tr, isInstallEvent e = false := by
  have hOK : (installMethods ("[createTahoeView]") ("TahoeView") s viewSelectors).1 = true := by
    apply installMethods_ok_of_fresh
    · intro m _
      exact hM m
    · decide
  have hregIM : ((installMethods ("[createTahoeView]") ("TahoeView") s
      viewSelectors).2.1).registered = s.registered :=
    installMethods_registered _ _ viewSelectors s
  rcases hIM : installMethods ("[createTahoeView]") ("TahoeView") s viewSelectors
    with ⟨ok, s1, evs⟩
  rw [hIM] at hOK hregIM
  simp only [] at hOK hregIM
  subst hOK
  have h1 : createTahoeView s w =
      instFinish (registerClassPair s1 ("TahoeView")) w ("TahoeView")
        ((TEvent.lookup ("TahoeView") false :: TEvent.allocClass ("TahoeView") :: evs) ++
          [TEvent.registerClass ("TahoeView"),
            TEvent.diag ("[createTahoeView] Created TahoeView class")]) := by
    simp only [createTahoeView, if_neg hw, if_neg hTV, if_pos hNSV, hIM, if_true]
  have hst1 : (createTahoeView s w).st.registered = ("TahoeView") :: s.registered := by
    rw [h1]
    simp [instFinish, registerClassPair, setAssociatedObject, hregIM]
  have hmem2 : ("TahoeView") ∈ (createTahoeView s w).st.registered := by
    rw [hst1]
    exact List.mem_cons_self _ _
  have h2gen : ∀ t : ObjCState, ("TahoeView") ∈ t.registered →
      createTahoeView t w = instFinish t w ("TahoeView") [TEvent.lookup ("TahoeView") true] := by
    intro t ht
    simp only [createTahoeView, if_neg hw, if_pos ht]
  have h2 := h2gen (createTahoeView s w).st hmem2
  refine ⟨?_, ?_, ?_, ?_⟩
  · rw [h1]
    rfl
  · rw [h2]
    rfl
  · rw [h2]
    have : (instFinish (createTahoeView s w).st w ("TahoeView")
        [TEvent.lookup ("TahoeView") true]).st.registered =
        (createTahoeView s w).st.registered := by
      simp [instFinish, setAssociatedObject]
    rw [this, hst1]
    rw [List.count_cons_self]
    rw [List.count_eq_zero.mpr hTV]
  · rw [h2]
    intro e he
    simp only [instFinish, List.cons_append, List.nil_append, List.mem_cons,
      List.not_mem_nil, or_false] at he
    rcases he with rfl | rfl | rfl <;> rfl

/-- Evaluation of the creator tail when the tick method is not yet
installed: the installation succeeds and a repeating timer is scheduled. -/
theorem timerAfterClass_fresh (s1 : ObjCState) (w : Nat) (i : ℚ) (pre : List TEvent)
    (hNum : ("NSNumber") ∈ s1.registered) (hTim : ("NSTimer") ∈ s1.registered)
    (hfresh : ((("TahoeTimerTarget"), ("tahoeTimerTick:")) : String × String) ∉ s1.methods) :
    timerAfterClass s1 w i pre =
      ⟨some (s1.nextInst + 2),
        ⟨s1.registered, (("TahoeTimerTarget"), ("tahoeTimerTick:")) :: s1.methods,
          s1.nextInst + 2, (s1.nextInst + 1, ("windowPtr"), w) :: s1.assoc⟩,
        (pre ++ [TEvent.allocInst ("TahoeTimerTarget"),
            TEvent.setAssoc (s1.nextInst + 1) ("windowPtr") w]) ++
          [TEvent.addMethod ("TahoeTimerTarget") ("tahoeTimerTick:") true,
            TEvent.diag ("[createAnimationTimer] Added tahoeTimerTick: method")] ++
          [TEvent.scheduleTimer i (s1.nextInst + 1) w]⟩ := by
  simp [timerAfterClass, setAssociatedObject, classAddMethod, hNum, hTim, hfresh]

/-- Evaluation of the creator tail when the tick method is already
installed: the re-installation fails, the failure is diagnosed and
tolerated, and a repeating timer is still scheduled. -/
theorem timerAfterClass_existing (s1 : ObjCState) (w : Nat) (i : ℚ) (pre : List TEvent)
    (hNum : ("NSNumber") ∈ s1.registered) (hTim : ("NSTimer") ∈ s1.registered)
    (hmem : ((("TahoeTimerTarget"), ("tahoeTimerTick:")) : String × String) ∈ s1.methods) :
    timerAfterClass s1 w i pre =
      ⟨some (s1.nextInst + 2),
        ⟨s1.registered, s1.methods, s1.nextInst + 2,
          (s1.nextInst + 1, ("windowPtr"), w) :: s1.assoc⟩,
        (pre ++ [TEvent.allocInst ("TahoeTimerTarget"),
            TEvent.setAssoc (s1.nextInst + 1) ("windowPtr") w]) ++
          [TEvent.addMethod ("TahoeTimerTarget") ("tahoeTimerTick:") false,
            TEvent.diag
              ("[createAnimationTimer] Method tahoeTimerTick: already exists or failed to add (continuing)")] ++
          [TEvent.scheduleTimer i (s1.nextInst + 1) w]⟩ := by
  simp [timerAfterClass, setAssociatedObject, classAddMethod, hNum, hTim, hmem]

/-- Two successive timer creations from a state where the target class is
not yet registered: both succeed and exactly one class is registered, but
the second call re-attempts the tick-method installation, which fails and
is tolerated. -/
theorem timer_idempotent (s : ObjCState) (w : Nat) (i : ℚ) (hw : w ≠ 0)
    (hi1 : 0 < i) (hi2 : i ≤ 1)
    (hNSO : ("NSObject") ∈ s.registered)
    (hNum : ("NSNumber") ∈ s.registered)
    (hTim : ("NSTimer") ∈ s.registered)
    (hTTT : ("TahoeTimerTarget") ∉ s.registered)
    (hM : ∀ m, ((("TahoeTimerTarget"), m) : String × String) ∉ s.methods) :
    (createAnimationTimer s w i).res.isSome ∧
    (createAnimationTimer (createAnimationTimer s w i).st w i).res.isSome ∧
    ((createAnimationTimer (createAnimationTimer s w i).st w i).st.registered.count
      ("TahoeTimerTarget")) = 1 ∧
    (∀ e ∈ (createAnimationTimer (createAnimationTimer s w i).st w i).tr,
      isClassCreationEvent e = false) ∧
    TEvent.addMethod ("TahoeTimerTarget") ("tahoeTimerTick:") false ∈
      (createAnimationTimer (createAnimationTimer s w i).st w i).tr := by
  have hcond : ¬(i ≤ 0 ∨ 1 < i) := by
    rintro (h | h) <;> linarith
  have h1 : createAnimationTimer s w i =
      timerAfterClass (registerClassPair s ("TahoeTimerTarget")) w i
        [TEvent.lookup ("TahoeTimerTarget") false, TEvent.allocClass ("TahoeTimerTarget"),
          TEvent.registerClass ("TahoeTimerTarget"),
          TEvent.diag ("[createAnimationTimer] Created TahoeTimerTarget class")] := by
    simp only [createAnimationTimer, if_neg hw, if_neg hcond, if_neg hTTT, if_pos hNSO]
  have hNum1 : ("NSNumber") ∈ (registerClassPair s ("TahoeTimerTarget")).registered :=
    List.mem_cons_of_mem _ hNum
  have hTim1 : ("NSTimer") ∈ (registerClassPair s ("TahoeTimerTarget")).registered :=
    List.mem_cons_of_mem _ hTim
  have hfresh1 : ((("TahoeTimerTarget"), ("tahoeTimerTick:")) : String × String) ∉
      (registerClassPair s ("TahoeTimerTarget")).methods := hM _
  rw [timerAfterClass_fresh _ _ _ _ hNum1 hTim1 hfresh1] at h1
  have hst1 : (createAnimationTimer s w i).st =
      ⟨("TahoeTimerTarget") :: s.registered,
        (("TahoeTimerTarget"), ("tahoeTimerTick:")) :: s.methods,
        s.nextInst + 2, (s.nextInst + 1, ("windowPtr"), w) :: s.assoc⟩ := by
    rw [h1]
    rfl
  have hres1 : (createAnimationTimer s w i).res.isSome := by
    rw [h1]
    rfl
  have hmem2 : ("TahoeTimerTarget") ∈ (createAnimationTimer s w i).st.registered := by
    rw [hst1]
    exact List.mem_cons_self _ _
  have h2 : createAnimationTimer (createAnimationTimer s w i).st w i =
      timerAfterClass (createAnimationTimer s w i).st w i
        [TEvent.lookup ("TahoeTimerTarget") true] := by
    conv =>
      lhs
      rw [createAnimationTimer]
    rw [if_neg hw, if_neg hcond, if_pos hmem2]
  have hNum2 : ("NSNumber") ∈ (createAnimationTimer s w i).st.registered := by
    rw [hst1]
    exact List.mem_cons_of_mem _ hNum
  have hTim2 : ("NSTimer") ∈ (createAnimationTimer s w i).st.registered := by
    rw [hst1]
    exact List.mem_cons_of_mem _ hTim
  have hmemM2 : ((("TahoeTimerTarget"), ("tahoeTimerTick:")) : String × String) ∈
      (createAnimationTimer s w i).st.methods := by
    rw [hst1]
    exact List.mem_cons_self _ _
  rw [timerAfterClass_existing _ _ _ _ hNum2 hTim2 hmemM2] at h2
  refine ⟨hres1, ?_, ?_, ?_, ?_⟩
  · rw [h2]
    rfl
  · rw [h2]
    simp only []
    rw [hst1]
    simp only []
    rw [List.count_cons_self]
    rw [List.count_eq_zero.mpr hTTT]
  · rw [h2]
    intro e he
    simp only [List.cons_append, List.nil_append, List.append_assoc, List.mem_cons,
      List.mem_append, List.not_mem_nil, or_false] at he
    rcases he with rfl | rfl | rfl | rfl | rfl | rfl <;> rfl
  · rw [h2]
    simp

/-- A runtime state holding only the base classes this layer derives from,
with no methods installed, no instances and an empty side table. -/
def initialRuntimeState : ObjCState :=
  ⟨[("NSObject"), ("NSView"), ("NSNumber"), ("NSTimer")], [], 0, []⟩

/-- C3 counterexample: after a first timer creation from a clean base
state, the second creation for the same type name does not skip every
method-installation step; it re-attempts the tick-method installation
(which fails), so the second call is not a pure lookup. -/
theorem C3_second_timer_call_reinstalls :
    TEvent.addMethod ("TahoeTimerTarget") ("tahoeTimerTick:") false ∈
      (createAnimationTimer
        (createAnimationTimer ⟨[("NSObject"), ("NSNumber"), ("NSTimer")], [], 0, []⟩ 42 1).st
        42 1).tr := by
  decide

/-- C3 amended: from any state in which the base classes are present and
the synthesized type names are not yet registered, invoking each
type-synthesis operation twice registers exactly one runtime class with no
duplicate-registration error; for the window delegate and the input view
the second invocation performs only a lookup and skips every
class-allocation and method-installation step, while for the timer target
the second invocation skips class allocation and registration but
re-attempts the tick-method installation, which fails and is tolerated. -/
theorem C3_type_synthesis_idempotent :
    ∀ (s : ObjCState) (w : Nat) (i : ℚ),
      w ≠ 0 → 0 < i → i ≤ 1 →
      ("NSObject") ∈ s.registered → ("NSView") ∈ s.registered →
      ("NSNumber") ∈ s.registered → ("NSTimer") ∈ s.registered →
      ("TahoeWindowDelegate") ∉ s.registered → ("TahoeView") ∉ s.registered →
      ("TahoeTimerTarget") ∉ s.registered →
      (∀ m, ((("TahoeWindowDelegate"), m) : String × String) ∉ s.methods) →
      (∀ m, ((("TahoeView"), m) : String × String) ∉ s.methods) →
      (∀ m, ((("TahoeTimerTarget"), m) : String × String) ∉ s.methods) →
      ((createWindowDelegate s w).res.isSome ∧
        (createWindowDelegate (createWindowDelegate s w).st w).res.isSome ∧
        ((createWindowDelegate (createWindowDelegate s w).st w).st.registered.count
          ("TahoeWindowDelegate")) = 1 ∧
        (∀ e ∈ (createWindowDelegate (createWindowDelegate s w).st w).tr,
          isInstallEvent e = false)) ∧
      ((createTahoeView s w).res.isSome ∧
        (createTahoeView (createTahoeView s w).st w).res.isSome ∧
        ((createTahoeView (createTahoeView s w).st w).st.registered.count ("TahoeView")) = 1 ∧
        (∀ e ∈ (createTahoeView (createTahoeView s w).st w).tr, isInstallEvent e = false)) ∧
      ((createAnimationTimer s w i).res.isSome ∧
        (createAnimationTimer (createAnimationTimer s w i).st w i).res.isSome ∧
        ((createAnimationTimer (createAnimationTimer s w i).st w i).st.registered.count
          ("TahoeTimerTarget")) = 1 ∧
        (∀ e ∈ (createAnimationTimer (createAnimationTimer s w i).st w i).tr,
          isClassCreationEvent e = false) ∧
        TEvent.addMethod ("TahoeTimerTarget") ("tahoeTimerTick:") false ∈
          (createAnimationTimer (createAnimationTimer s w i).st w i).tr) :=
  fun s w i hw hi1 hi2 hNSO hNSV hNum hTim hTWD hTV hTTT hM1 hM2 hM3 =>
    ⟨delegate_idempotent s w hw hNSO hTWD hM1,
      view_idempotent s w hw hNSV hTV hM2,
      timer_idempotent s w i hw hi1 hi2 hNSO hNum hTim hTTT hM3⟩

/-- C3 amended witness: the amended idempotence property instantiated at
the clean base state with token 42 and interval 1. -/
theorem C3_type_synthesis_idempotent_witness :
    ((createWindowDelegate initialRuntimeState 42).res.isSome ∧
      (createWindowDelegate (createWindowDelegate initialRuntimeState 42).st 42).res.isSome ∧
      ((createWindowDelegate (createWindowDelegate initialRuntimeState 42).st
        42).st.registered.count ("TahoeWindowDelegate")) = 1 ∧
      (∀ e ∈ (createWindowDelegate (createWindowDelegate initialRuntimeState 42).st 42).tr,
        isInstallEvent e = false)) ∧
    ((createTahoeView initialRuntimeState 42).res.isSome ∧
      (createTahoeView (createTahoeView initialRuntimeState 42).st 42).res.isSome ∧
      ((createTahoeView (createTahoeView initialRuntimeState 42).st 42).st.registered.count
        ("TahoeView")) = 1 ∧
      (∀ e ∈ (createTahoeView (createTahoeView initialRuntimeState 42).st 42).tr,
        isInstallEvent e = false)) ∧
    ((createAnimationTimer initialRuntimeState 42 1).res.isSome ∧
      (createAnimationTimer (createAnimationTimer initialRuntimeState 42 1).st 42 1).res.isSome ∧
      ((createAnimationTimer (createAnimationTimer initialRuntimeState 42 1).st 42
        1).st.registered.count ("TahoeTimerTarget")) = 1 ∧
      (∀ e ∈ (createAnimationTimer (createAnimationTimer initialRuntimeState 42 1).st 42 1).tr,
        isClassCreationEvent e = false) ∧
      TEvent.addMethod ("TahoeTimerTarget") ("tahoeTimerTick:") false ∈
        (createAnimationTimer (createAnimationTimer initialRuntimeState 42 1).st 42 1).tr) :=
  C3_type_synthesis_idempotent initialRuntimeState 42 1 (by decide) (by norm_num) (by norm_num)
    (by decide) (by decide) (by decide) (by decide) (by decide) (by decide) (by decide)
    (fun m => List.not_mem_nil _) (fun m => List.not_mem_nil _) (fun m => List.not_mem_nil _)

/-- A failed tick-method installation inside the creator tail is either
inherited from the preamble trace or accompanied by the
failure-is-tolerated diagnostic. -/
theorem timerAfterClass_fail_diag (s1 : ObjCState) (w : Nat) (i : ℚ) (pre : List TEvent)
    (c m : String)
    (hmem : TEvent.addMethod c m false ∈ (timerAfterClass s1 w i pre).tr) :
    TEvent.addMethod c m false ∈ pre ∨
      TEvent.diag
        ("[createAnimationTimer] Method tahoeTimerTick: already exists or failed to add (continuing)") ∈
        (timerAfterClass s1 w i pre).tr := by
  by_cases hAM : ((("TahoeTimerTarget"), ("tahoeTimerTick:")) : String × String) ∈ s1.methods
  · simp only [timerAfterClass, setAssociatedObject, classAddMethod, if_pos hAM] at hmem ⊢
    split_ifs at hmem ⊢ <;> simp_all
  · simp only [timerAfterClass, setAssociatedObject, classAddMethod, if_neg hAM] at hmem ⊢
    split_ifs at hmem ⊢ <;> simp_all

/-- The creator tail always returns a timer handle when the Foundation
classes it needs are present. -/
theorem timerAfterClass_isSome (s1 : ObjCState) (w : Nat) (i : ℚ) (pre : List TEvent)
    (hNum : ("NSNumber") ∈ s1.registered) (hTim : ("NSTimer") ∈ s1.registered) :
    (timerAfterClass s1 w i pre).res.isSome := by
  by_cases hAM : ((("TahoeTimerTarget"), ("tahoeTimerTick:")) : String × String) ∈ s1.methods
  · rw [timerAfterClass_existing s1 w i pre hNum hTim hAM]
    rfl
  · rw [timerAfterClass_fresh s1 w i pre hNum hTim hAM]
    rfl

/-- A failed installation during delegate creation aborts it: the call
returns NULL and a diagnostic is in the trace. -/
theorem createWindowDelegate_fail_aborts (s : ObjCState) (w : Nat) (c m : String)
    (hmem : TEvent.addMethod c m false ∈ (createWindowDelegate s w).tr) :
    (createWindowDelegate s w).res = none ∧
      ∃ d, TEvent.diag d ∈ (createWindowDelegate s w).tr := by
  by_cases h0 : w = 0
  · simp only [createWindowDelegate, if_pos h0] at hmem
    simp at hmem
  · by_cases hr : ("TahoeWindowDelegate") ∈ s.registered
    · simp only [createWindowDelegate, if_neg h0, if_pos hr, instFinish] at hmem
      simp at hmem
    · by_cases hn : ("NSObject") ∈ s.registered
      · simp only [createWindowDelegate, if_neg h0, if_neg hr, if_pos hn] at hmem ⊢
        by_cases hok : (installMethods ("[createWindowDelegate]") ("TahoeWindowDelegate") s
            delegateSelectors).1 = true
        · rw [if_pos hok] at hmem ⊢
          exfalso
          simp only [instFinish, List.append_assoc, List.cons_append, List.nil_append,
            List.mem_cons, List.mem_append, List.not_mem_nil, or_false] at hmem
          rcases hmem with h | h | h | h | h | h | h <;>
            first
              | simp_all
              | exact absurd ((installMethods_mem_false _ _ _ _ _ _ h).1)
                  (by rw [hok]; simp)
        · rw [if_neg hok] at hmem ⊢
          refine ⟨rfl, ?_⟩
          simp only [List.mem_cons] at hmem
          rcases hmem with h | h | h
          · exact absurd h (by simp)
          · exact absurd h (by simp)
          · rcases (installMethods_mem_false _ _ _ _ _ _ h).2 with ⟨d, hd⟩
            exact ⟨d, by simp [hd]⟩
      · simp only [createWindowDelegate, if_neg h0, if_neg hr, if_neg hn] at hmem
        simp at hmem

/-- A failed installation during view creation aborts it: the call returns
NULL and a diagnostic is in the trace. -/
theorem createTahoeView_fail_aborts (s : ObjCState) (w : Nat) (c m : String)
    (hmem : TEvent.addMethod c m false ∈ (createTahoeView s w).tr) :
    (createTahoeView s w).res = none ∧
      ∃ d, TEvent.diag d ∈ (createTahoeView s w).tr := by
  by_cases h0 : w = 0
  · simp only [createTahoeView, if_pos h0] at hmem
    simp at hmem
  · by_cases hr : ("TahoeView") ∈ s.registered
    · simp only [createTahoeView, if_neg h0, if_pos hr, instFinish] at hmem
      simp at hmem
    · by_cases hn : ("NSView") ∈ s.registered
      · simp only [createTahoeView, if_neg h0, if_neg hr, if_pos hn] at hmem ⊢
        by_cases hok : (installMethods ("[createTahoeView]") ("TahoeView") s
            viewSelectors).1 = true
        · rw [if_pos hok] at hmem ⊢
          exfalso
          simp only [instFinish, List.append_assoc, List.cons_append, List.nil_append,
            List.mem_cons, List.mem_append, List.not_mem_nil, or_false] at hmem
          rcases hmem with h | h | h | h | h | h | h <;>
            first
              | simp_all
              | exact absurd ((installMethods_mem_false _ _ _ _ _ _ h).1)
                  (by rw [hok]; simp)
        · rw [if_neg hok] at hmem ⊢
          refine ⟨rfl, ?_⟩
          simp only [List.mem_cons] at hmem
          rcases hmem with h | h | h
          · exact absurd h (by simp)
          · exact absurd h (by simp)
          · rcases (installMethods_mem_false _ _ _ _ _ _ h).2 with ⟨d, hd⟩
            exact ⟨d, by simp [hd]⟩
      · simp only [createTahoeView, if_neg h0, if_neg hr, if_neg hn] at hmem
        simp at hmem

/-- A failed tick-method installation in the timer creator is always
accompanied by the tolerated-failure diagnostic. -/
theorem createAnimationTimer_fail_diag (s : ObjCState) (w : Nat) (i : ℚ) (c m : String)
    (hmem : TEvent.addMethod c m false ∈ (createAnimationTimer s w i).tr) :
    TEvent.diag
      ("[createAnimationTimer] Method tahoeTimerTick: already exists or failed to add (continuing)") ∈
      (createAnimationTimer s w i).tr := by
  by_cases h0 : w = 0
  · simp only [createAnimationTimer, if_pos h0] at hmem
    simp at hmem
  · by_cases hint : i ≤ 0 ∨ 1 < i
    · simp only [createAnimationTimer, if_neg h0, if_pos hint] at hmem
      simp at hmem
    · by_cases hr : ("TahoeTimerTarget") ∈ s.registered
      · simp only [createAnimationTimer, if_neg h0, if_neg hint, if_pos hr] at hmem ⊢
        rcases timerAfterClass_fail_diag _ _ _ _ _ _ hmem with h | h
        · simp at h
        · exact h
      · by_cases hn : ("NSObject") ∈ s.registered
        · simp only [createAnimationTimer, if_neg h0, if_neg hint, if_neg hr,
            if_pos hn] at hmem ⊢
          rcases timerAfterClass_fail_diag _ _ _ _ _ _ hmem with h | h
          · simp at h
          · exact h
        · simp only [createAnimationTimer, if_neg h0, if_neg hint, if_neg hr,
            if_neg hn] at hmem
          simp at hmem

/-- C5 counterexample: with the timer-target class already registered and
the tick method already installed, the tick-method installation step of
createAnimationTimer fails, yet the creation is not aborted: the call
still returns a timer handle instead of null. -/
theorem C5_install_failure_not_aborted :
    TEvent.addMethod ("TahoeTimerTarget") ("tahoeTimerTick:") false ∈
      (createAnimationTimer
        ⟨[("TahoeTimerTarget"), ("NSObject"), ("NSNumber"), ("NSTimer")],
          [(("TahoeTimerTarget"), ("tahoeTimerTick:"))], 0, []⟩ 42 1).tr ∧
    (createAnimationTimer
      ⟨[("TahoeTimerTarget"), ("NSObject"), ("NSNumber"), ("NSTimer")],
        [(("TahoeTimerTarget"), ("tahoeTimerTick:"))], 0, []⟩ 42 1).res.isSome := by
  constructor <;> decide

/-- C5 amended: during delegate and view synthesis every install step is
validated and any installation failure aborts the whole creation with a
NULL return and a diagnostic; in the timer creator the tick-method
installation failure is diagnosed but deliberately tolerated: the
creation continues and still returns a timer handle. -/
theorem C5_install_failure_handling :
    (∀ (s : ObjCState) (w : Nat) (c m : String),
      TEvent.addMethod c m false ∈ (createWindowDelegate s w).tr →
      (createWindowDelegate s w).res = none ∧
        ∃ d, TEvent.diag d ∈ (createWindowDelegate s w).tr) ∧
    (∀ (s : ObjCState) (w : Nat) (c m : String),
      TEvent.addMethod c m false ∈ (createTahoeView s w).tr →
      (createTahoeView s w).res = none ∧
        ∃ d, TEvent.diag d ∈ (createTahoeView s w).tr) ∧
    (∀ (s : ObjCState) (w : Nat) (i : ℚ) (c m : String),
      TEvent.addMethod c m false ∈ (createAnimationTimer s w i).tr →
      TEvent.diag
        ("[createAnimationTimer] Method tahoeTimerTick: already exists or failed to add (continuing)") ∈
        (createAnimationTimer s w i).tr) ∧
    (∀ (s : ObjCState) (w : Nat) (i : ℚ),
      w ≠ 0 → 0 < i → i ≤ 1 →
      ("NSNumber") ∈ s.registered → ("NSTimer") ∈ s.registered →
      ("TahoeTimerTarget") ∈ s.registered →
      ((("TahoeTimerTarget"), ("tahoeTimerTick:")) : String × String) ∈ s.methods →
      TEvent.addMethod ("TahoeTimerTarget") ("tahoeTimerTick:") false ∈
        (createAnimationTimer s w i).tr ∧
      (createAnimationTimer s w i).res.isSome) := by
  refine ⟨createWindowDelegate_fail_aborts, createTahoeView_fail_aborts,
    createAnimationTimer_fail_diag, ?_⟩
  intro s w i hw hi1 hi2 hNum hTim hTTT hpair
  have hcond : ¬(i ≤ 0 ∨ 1 < i) := by
    rintro (h | h) <;> linarith
  have h1 : createAnimationTimer s w i =
      timerAfterClass s w i [TEvent.lookup ("TahoeTimerTarget") true] := by
    simp only [createAnimationTimer, if_neg hw, if_pos hTTT, if_neg hcond]
  rw [h1, timerAfterClass_existing s w i _ hNum hTim hpair]
  constructor
  · simp
  · rfl

/-- C5 amended witness: a state in which the delegate resize method is
already present makes the first install step fail, and the delegate
creation aborts with NULL and a diagnostic. -/
theorem C5_install_failure_handling_witness :
    (createWindowDelegate
      ⟨[("NSObject")], [(("TahoeWindowDelegate"), ("windowDidResize:"))], 0, []⟩ 42).res = none ∧
    ∃ d, TEvent.diag d ∈
      (createWindowDelegate
        ⟨[("NSObject")], [(("TahoeWindowDelegate"), ("windowDidResize:"))], 0, []⟩ 42).tr :=
  C5_install_failure_handling.1
    ⟨[("NSObject")], [(("TahoeWindowDelegate"), ("windowDidResize:"))], 0, []⟩
    42 ("TahoeWindowDelegate") ("windowDidResize:") (by decide)

/-- C6: an interval outside (0, 1.0] is rejected for every token: the call
returns NULL, leaves the runtime state untouched, emits a diagnostic, and
neither schedules a timer nor registers a class; and for every interval
inside (0, 1.0] with a nonzero token, when the base classes are present,
the call returns a timer handle. -/
theorem C6_timer_interval_validation :
    (∀ (s : ObjCState) (w : Nat) (i : ℚ), (i ≤ 0 ∨ 1 < i) →
      (createAnimationTimer s w i).res = none ∧
      (createAnimationTimer s w i).st = s ∧
      (∃ d, TEvent.diag d ∈ (createAnimationTimer s w i).tr) ∧
      (∀ (iv : ℚ) (t tok : Nat),
        TEvent.scheduleTimer iv t tok ∉ (createAnimationTimer s w i).tr) ∧
      (∀ n, TEvent.registerClass n ∉ (createAnimationTimer s w i).tr)) ∧
    (∀ (s : ObjCState) (w : Nat) (i : ℚ),
      w ≠ 0 → 0 < i → i ≤ 1 →
      ("NSObject") ∈ s.registered → ("NSNumber") ∈ s.registered →
      ("NSTimer") ∈ s.registered →
      (createAnimationTimer s w i).res.isSome) := by
  constructor
  · intro s w i h
    by_cases h0 : w = 0
    · have h1 : createAnimationTimer s w i =
          ⟨none, s, [TEvent.diag ("[createAnimationTimer] NULL window_ptr")]⟩ := by
        simp only [createAnimationTimer, if_pos h0]
      rw [h1]
      refine ⟨rfl, rfl, ⟨("[createAnimationTimer] NULL window_ptr"), by simp⟩, ?_, ?_⟩
      · intro iv t tok
        simp
      · intro n
        simp
    · have h1 : createAnimationTimer s w i =
          ⟨none, s,
            [TEvent.diag ("[createAnimationTimer] Invalid interval (expected 0 < interval <= 1.0)")]⟩ := by
        simp only [createAnimationTimer, if_neg h0, if_pos h]
      rw [h1]
      refine ⟨rfl, rfl,
        ⟨("[createAnimationTimer] Invalid interval (expected 0 < interval <= 1.0)"), by simp⟩,
        ?_, ?_⟩
      · intro iv t tok
        simp
      · intro n
        simp
  · intro s w i hw hi1 hi2 hNSO hNum hTim
    have hcond : ¬(i ≤ 0 ∨ 1 < i) := by
      rintro (h | h) <;> linarith
    by_cases hr : ("TahoeTimerTarget") ∈ s.registered
    · have h1 : createAnimationTimer s w i =
          timerAfterClass s w i [TEvent.lookup ("TahoeTimerTarget") true] := by
        simp only [createAnimationTimer, if_neg hw, if_neg hcond, if_pos hr]
      rw [h1]
      exact timerAfterClass_isSome s w i _ hNum hTim
    · have h1 : createAnimationTimer s w i =
          timerAfterClass (registerClassPair s ("TahoeTimerTarget")) w i
            [TEvent.lookup ("TahoeTimerTarget") false, TEvent.allocClass ("TahoeTimerTarget"),
              TEvent.registerClass ("TahoeTimerTarget"),
              TEvent.diag ("[createAnimationTimer] Created TahoeTimerTarget class")] := by
        simp only [createAnimationTimer, if_neg hw, if_neg hcond, if_neg hr, if_pos hNSO]
      rw [h1]
      exact timerAfterClass_isSome _ w i _ (List.mem_cons_of_mem _ hNum)
        (List.mem_cons_of_mem _ hTim)

/-- C6 witness: interval 1.5 with token 7 is rejected with no timer
scheduled and no class registered, while interval 0.5 with token 42
returns a timer handle. -/
theorem C6_timer_interval_validation_witness :
    ((createAnimationTimer initialRuntimeState 7 (3 / 2)).res = none ∧
      (createAnimationTimer initialRuntimeState 7 (3 / 2)).st = initialRuntimeState ∧
      (∃ d, TEvent.diag d ∈ (createAnimationTimer initialRuntimeState 7 (3 / 2)).tr) ∧
      (∀ (iv : ℚ) (t tok : Nat),
        TEvent.scheduleTimer iv t tok ∉ (createAnimationTimer initialRuntimeState 7 (3 / 2)).tr) ∧
      (∀ n, TEvent.registerClass n ∉ (createAnimationTimer initialRuntimeState 7 (3 / 2)).tr)) ∧
    (createAnimationTimer initialRuntimeState 42 (1 / 2)).res.isSome :=
  ⟨C6_timer_interval_validation.1 initialRuntimeState 7 (3 / 2) (Or.inr (by norm_num)),
    C6_timer_interval_validation.2 initialRuntimeState 42 (1 / 2) (by decide) (by norm_num)
      (by norm_num) (by decide) (by decide) (by decide)⟩

/-!
Event extraction and routing bridge: the trampoline callbacks installed on
the synthesized types.  Native event objects are modelled as records of
the fields the callbacks read; a callback returns the list of router
invocations it makes (in order) and the diagnostics it prints.  The tick
callback reads the timer argument and its userInfo NSNumber; all other
callbacks read the context token from the associated-object side table of
the receiving instance.
-/

/-- One invocation of one of the five external router entry points. -/
inductive Route where
  | mouse (token kind button : Nat) (x y : ℚ) (modifiers : Nat)
  | key (token kind keyCode character modifiers : Nat)
  | focus (token kind : Nat)
  | tick (token : Nat)
  | resize (token : Nat) (width height : ℚ)
deriving DecidableEq

/-- Fields of a native pointer event read by the mouse callbacks:
buttonNumber (an NSInteger, hence signed), the locationInWindow
coordinates, and the modifierFlags bitmask. -/
structure MouseEvt where
  buttonNumber : Int
  x : ℚ
  y : ℚ
  modifierFlags : Nat
deriving DecidableEq

/-- Fields of a native key event read by the key callbacks: the virtual
keyCode, the UTF-8 bytes of the characters string (none when the string
itself is NULL), and the modifierFlags bitmask. -/
structure KeyEvt where
  keyCode : Nat
  characters : Option (List Nat)
  modifierFlags : Nat
deriving DecidableEq

/-- A view object as read by the resize callback: its frame. -/
structure ViewObj where
  frame : NSRect
deriving DecidableEq

/-- A window object as read by the resize callback: its own frame and its
content view (absent when contentView returns NULL). -/
structure WindowObj where
  frame : NSRect
  contentView : Option ViewObj
deriving DecidableEq

/-- A resize notification: its object message returns the window, or NULL. -/
structure NotifObj where
  object : Option WindowObj
deriving DecidableEq

/-- A timer object as read by the tick callback: its userInfo NSNumber
holding the context token, or none when userInfo is NULL. -/
structure TimerObj where
  userInfo : Option Nat
deriving DecidableEq

/-- Button normalization of the mouse callbacks: a buttonNumber outside
0, 1, 2 becomes 3. -/
def normButton (b : Int) : Nat :=
  if b < 0 ∨ 2 < b then 3 else b.toNat

/-- First decoded character of the key-event characters string: the first
UTF-8 byte when the string is present and non-empty, 0 otherwise. -/
def firstUTF8Char : Option (List Nat) → Nat
  | some (c :: _) => if c = 0 then 0 else c
  | _ => 0

/-- Embedding of windowDidResizeImpl: validate self and the notification,
read the context token from the side table and abort when it is absent or
zero, extract the window from the notification, read the window frame
(unused), then the content view and its frame, and route exactly one
resize with the content-view dimensions. -/
def windowDidResizeImpl (assoc : List (Nat × String × Nat)) (self : Nat)
    (notification : Option NotifObj) : List Route × List String :=
  if self = 0 then ([], [("[windowDidResizeImpl] NULL self or notification")])
  else match notification with
  | none => ([], [("[windowDidResizeImpl] NULL self or notification")])
  | some notif =>
    match getAssociatedObject assoc self ("windowPtr") with
    | none => ([], [("[windowDidResizeImpl] window_ptr not found in associated objects")])
    | some window_ptr =>
      if window_ptr = 0 then ([], [("[windowDidResizeImpl] window_ptr is 0")])
      else match notif.object with
      | none => ([], [("[windowDidResizeImpl] NSWindow from notification is NULL")])
      | some ns_window =>
        let _frame := ns_window.frame
        match ns_window.contentView with
        | none => ([], [("[windowDidResizeImpl] contentView is NULL")])
        | some content_view =>
          ([Route.resize window_ptr content_view.frame.width content_view.frame.height], [])

/-- Embedding of windowDidBecomeKeyImpl: validate self (the notification
is unused), read the token, abort when absent or zero, route focus
gained. -/
def windowDidBecomeKeyImpl (assoc : List (Nat × String × Nat)) (self : Nat) :
    List Route × List String :=
  if self = 0 then ([], [("[windowDidBecomeKeyImpl] NULL self")])
  else match getAssociatedObject assoc self ("windowPtr") with
  | none => ([], [("[windowDidBecomeKeyImpl] window_ptr not found")])
  | some window_ptr =>
    if window_ptr = 0 then ([], [("[windowDidBecomeKeyImpl] window_ptr is 0")])
    else ([Route.focus window_ptr 0], [])

/-- Embedding of windowDidResignKeyImpl: as focus-gained but routing focus
lost. -/
def windowDidResignKeyImpl (assoc : List (Nat × String × Nat)) (self : Nat) :
    List Route × List String :=
  if self = 0 then ([], [("[windowDidResignKeyImpl] NULL self")])
  else match getAssociatedObject assoc self ("windowPtr") with
  | none => ([], [("[windowDidResignKeyImpl] window_ptr not found")])
  | some window_ptr =>
    if window_ptr = 0 then ([], [("[windowDidResignKeyImpl] window_ptr is 0")])
    else ([Route.focus window_ptr 1], [])

/-- Embedding of tahoeTimerTickImpl: validate self and the timer, read the
token from the timer userInfo NSNumber (not from the side table), abort
when it is absent or zero, route one tick. -/
def tahoeTimerTickImpl (self : Nat) (timer : Option TimerObj) :
    List Route × List String :=
  if self = 0 then ([], [("[tahoeTimerTickImpl] NULL self or timer")])
  else match timer with
  | none => ([], [("[tahoeTimerTickImpl] NULL self or timer")])
  | some t =>
    match t.userInfo with
    | none => ([], [("[tahoeTimerTickImpl] Timer userInfo is NULL")])
    | some window_ptr =>
      if window_ptr = 0 then ([], [("[tahoeTimerTickImpl] window_ptr is 0")])
      else ([Route.tick window_ptr], [])

/-- Embedding of tahoeViewMouseDownImpl: kind 0, normalized button. -/
def tahoeViewMouseDownImpl (assoc : List (Nat × String × Nat)) (self : Nat)
    (event : Option MouseEvt) : List Route × List String :=
  if self = 0 then ([], [("[tahoeViewMouseDownImpl] NULL self or event")])
  else match event with
  | none => ([], [("[tahoeViewMouseDownImpl] NULL self or event")])
  | some e =>
    match getAssociatedObject assoc self ("windowPtr") with
    | none => ([], [("[tahoeViewMouseDownImpl] window_ptr not found")])
    | some window_ptr =>
      if window_ptr = 0 then ([], [("[tahoeViewMouseDownImpl] window_ptr is 0")])
      else
        ([Route.mouse window_ptr 0 (normButton e.buttonNumber) e.x e.y e.modifierFlags], [])

/-- Embedding of tahoeViewMouseUpImpl: kind 1, normalized button. -/
def tahoeViewMouseUpImpl (assoc : List (Nat × String × Nat)) (self : Nat)
    (event : Option MouseEvt) : List Route × List String :=
  if self = 0 then ([], [("[tahoeViewMouseUpImpl] NULL self or event")])
  else match event with
  | none => ([], [("[tahoeViewMouseUpImpl] NULL self or event")])
  | some e =>
    match getAssociatedObject assoc self ("windowPtr") with
    | none => ([], [("[tahoeViewMouseUpImpl] window_ptr not found")])
    | some window_ptr =>
      if window_ptr = 0 then ([], [("[tahoeViewMouseUpImpl] window_ptr is 0")])
      else
        ([Route.mouse window_ptr 1 (normButton e.buttonNumber) e.x e.y e.modifierFlags], [])

/-- Embedding of tahoeViewMouseDraggedImpl: kind 3, normalized button. -/
def tahoeViewMouseDraggedImpl (assoc : List (Nat × String × Nat)) (self : Nat)
    (event : Option MouseEvt) : List Route × List String :=
  if self = 0 then ([], [("[tahoeViewMouseDraggedImpl] NULL self or event")])
  else match event with
  | none => ([], [("[tahoeViewMouseDraggedImpl] NULL self or event")])
  | some e =>
    match getAssociatedObject assoc self ("windowPtr") with
    | none => ([], [("[tahoeViewMouseDraggedImpl] window_ptr not found")])
    | some window_ptr =>
      if window_ptr = 0 then ([], [("[tahoeViewMouseDraggedImpl] window_ptr is 0")])
      else
        ([Route.mouse window_ptr 3 (normButton e.buttonNumber) e.x e.y e.modifierFlags], [])

/-- Embedding of tahoeViewMouseMovedImpl: kind 2, button fixed to 0 (the
buttonNumber field is never read). -/
def tahoeViewMouseMovedImpl (assoc : List (Nat × String × Nat)) (self : Nat)
    (event : Option MouseEvt) : List Route × List String :=
  if self = 0 then ([], [("[tahoeViewMouseMovedImpl] NULL self or event")])
  else match event with
  | none => ([], [("[tahoeViewMouseMovedImpl] NULL self or event")])
  | some e =>
    match getAssociatedObject assoc self ("windowPtr") with
    | none => ([], [("[tahoeViewMouseMovedImpl] window_ptr not found")])
    | some window_ptr =>
      if window_ptr = 0 then ([], [("[tahoeViewMouseMovedImpl] window_ptr is 0")])
      else ([Route.mouse window_ptr 2 0 e.x e.y e.modifierFlags], [])

/-- Embedding of tahoeViewKeyDownImpl: kind 0, keyCode, first decoded
character, modifiers. -/
def tahoeViewKeyDownImpl (assoc : List (Nat × String × Nat)) (self : Nat)
    (event : Option KeyEvt) : List Route × List String :=
  if self = 0 then ([], [("[tahoeViewKeyDownImpl] NULL self or event")])
  else match event with
  | none => ([], [("[tahoeViewKeyDownImpl] NULL self or event")])
  | some e =>
    match getAssociatedObject assoc self ("windowPtr") with
    | none => ([], [("[tahoeViewKeyDownImpl] window_ptr not found")])
    | some window_ptr =>
      if window_ptr = 0 then ([], [("[tahoeViewKeyDownImpl] window_ptr is 0")])
      else
        ([Route.key window_ptr 0 e.keyCode (firstUTF8Char e.characters) e.modifierFlags], [])

/-- Embedding of tahoeViewKeyUpImpl: kind 1, keyCode, first decoded
character, modifiers. -/
def tahoeViewKeyUpImpl (assoc : List (Nat × String × Nat)) (self : Nat)
    (event : Option KeyEvt) : List Route × List String :=
  if self = 0 then ([], [("[tahoeViewKeyUpImpl] NULL self or event")])
  else match event with
  | none => ([], [("[tahoeViewKeyUpImpl] NULL self or event")])
  | some e =>
    match getAssociatedObject assoc self ("windowPtr") with
    | none => ([], [("[tahoeViewKeyUpImpl] window_ptr not found")])
    | some window_ptr =>
      if window_ptr = 0 then ([], [("[tahoeViewKeyUpImpl] window_ptr is 0")])
      else
        ([Route.key window_ptr 1 e.keyCode (firstUTF8Char e.characters) e.modifierFlags], [])

/-- C7 counterexample: the timer tick callback does not consult the
associated-object side table at all.  On an instance whose side-table
entry is absent (here the table is empty), the claim requires the
callback to abort and invoke no router, but the callback reads the token
from the timer userInfo and routes a tick with it. -/
theorem C7_tick_reads_userInfo_not_assoc :
    getAssociatedObject [] 5 ("windowPtr") = none ∧
    (tahoeTimerTickImpl 5 (some ⟨some 42⟩)).1 = [Route.tick 42] :=
  ⟨rfl, rfl⟩

/-- C7 amended: every installed trampoline callback except the timer tick
retrieves the context token via the associated-object side table and
aborts immediately with a diagnostic, invoking no router, when the token
is absent or zero; the timer tick callback retrieves the token from the
timer userInfo NSNumber instead, and aborts with a diagnostic, invoking
no router, when that userInfo is absent or zero. -/
theorem C7_missing_token_aborts :
    (∀ assoc self notif,
      (getAssociatedObject assoc self ("windowPtr") = none ∨
        getAssociatedObject assoc self ("windowPtr") = some 0) →
      (windowDidResizeImpl assoc self notif).1 = [] ∧
        (windowDidResizeImpl assoc self notif).2 ≠ []) ∧
    (∀ assoc self,
      (getAssociatedObject assoc self ("windowPtr") = none ∨
        getAssociatedObject assoc self ("windowPtr") = some 0) →
      (windowDidBecomeKeyImpl assoc self).1 = [] ∧
        (windowDidBecomeKeyImpl assoc self).2 ≠ []) ∧
    (∀ assoc self,
      (getAssociatedObject assoc self ("windowPtr") = none ∨
        getAssociatedObject assoc self ("windowPtr") = some 0) →
      (windowDidResignKeyImpl assoc self).1 = [] ∧
        (windowDidResignKeyImpl assoc self).2 ≠ []) ∧
    (∀ assoc self event,
      (getAssociatedObject assoc self ("windowPtr") = none ∨
        getAssociatedObject assoc self ("windowPtr") = some 0) →
      (tahoeViewMouseDownImpl assoc self event).1 = [] ∧
        (tahoeViewMouseDownImpl assoc self event).2 ≠ []) ∧
    (∀ assoc self event,
      (getAssociatedObject assoc self ("windowPtr") = none ∨
        getAssociatedObject assoc self ("windowPtr") = some 0) →
      (tahoeViewMouseUpImpl assoc self event).1 = [] ∧
        (tahoeViewMouseUpImpl assoc self event).2 ≠ []) ∧
    (∀ assoc self event,
      (getAssociatedObject assoc self ("windowPtr") = none ∨
        getAssociatedObject assoc self ("windowPtr") = some 0) →
      (tahoeViewMouseDraggedImpl assoc self event).1 = [] ∧
        (tahoeViewMouseDraggedImpl assoc self event).2 ≠ []) ∧
    (∀ assoc self event,
      (getAssociatedObject assoc self ("windowPtr") = none ∨
        getAssociatedObject assoc self ("windowPtr") = some 0) →
      (tahoeViewMouseMovedImpl assoc self event).1 = [] ∧
        (tahoeViewMouseMovedImpl assoc self event).2 ≠ []) ∧
    (∀ assoc self event,
      (getAssociatedObject assoc self ("windowPtr") = none ∨
        getAssociatedObject assoc self ("windowPtr") = some 0) →
      (tahoeViewKeyDownImpl assoc self event).1 = [] ∧
        (tahoeViewKeyDownImpl assoc self event).2 ≠ []) ∧
    (∀ assoc self event,
      (getAssociatedObject assoc self ("windowPtr") = none ∨
        getAssociatedObject assoc self ("windowPtr") = some 0) →
      (tahoeViewKeyUpImpl assoc self event).1 = [] ∧
        (tahoeViewKeyUpImpl assoc self event).2 ≠ []) ∧
    (∀ self (t : TimerObj), (t.userInfo = none ∨ t.userInfo = some 0) →
      (tahoeTimerTickImpl self (some t)).1 = [] ∧
        (tahoeTimerTickImpl self (some t)).2 ≠ []) := by
  refine ⟨?_, ?_, ?_, ?_, ?_, ?_, ?_, ?_, ?_, ?_⟩
  · intro assoc self notif hget
    by_cases hs : self = 0 <;> cases notif <;> rcases hget with hget | hget <;>
      simp [windowDidResizeImpl, hs, hget]
  · intro assoc self hget
    by_cases hs : self = 0 <;> rcases hget with hget | hget <;>
      simp [windowDidBecomeKeyImpl, hs, hget]
  · intro assoc self hget
    by_cases hs : self = 0 <;> rcases hget with hget | hget <;>
      simp [windowDidResignKeyImpl, hs, hget]
  · intro assoc self event hget
    by_cases hs : self = 0 <;> cases event <;> rcases hget with hget | hget <;>
      simp [tahoeViewMouseDownImpl, hs, hget]
  · intro assoc self event hget
    by_cases hs : self = 0 <;> cases event <;> rcases hget with hget | hget <;>
      simp [tahoeViewMouseUpImpl, hs, hget]
  · intro assoc self event hget
    by_cases hs : self = 0 <;> cases event <;> rcases hget with hget | hget <;>
      simp [tahoeViewMouseDraggedImpl, hs, hget]
  · intro assoc self event hget
    by_cases hs : self = 0 <;> cases event <;> rcases hget with hget | hget <;>
      simp [tahoeViewMouseMovedImpl, hs, hget]
  · intro assoc self event hget
    by_cases hs : self = 0 <;> cases event <;> rcases hget with hget | hget <;>
      simp [tahoeViewKeyDownImpl, hs, hget]
  · intro assoc self event hget
    by_cases hs : self = 0 <;> cases event <;> rcases hget with hget | hget <;>
      simp [tahoeViewKeyUpImpl, hs, hget]
  · intro self t hinfo
    by_cases hs : self = 0 <;> rcases hinfo with hinfo | hinfo <;>
      simp [tahoeTimerTickImpl, hs, hinfo]

/-- C7 amended witness: a resize callback on an instance with a zero
stored token aborts with a diagnostic and routes nothing. -/
theorem C7_missing_token_aborts_witness :
    (windowDidResizeImpl [(5, ("windowPtr"), 0)] 5 none).1 = [] ∧
    (windowDidResizeImpl [(5, ("windowPtr"), 0)] 5 none).2 ≠ [] :=
  C7_missing_token_aborts.1 [(5, ("windowPtr"), 0)] 5 none (Or.inr (by decide))

/-- C8: with a valid instance and nonzero token, the pointer callbacks map
press to kind 0, release to kind 1, move to kind 2 with button 0, and
drag to kind 3, each routed exactly once with the event coordinates and
modifiers; the button ordinal is normalized so that any value outside
0, 1, 2 becomes 3 and values inside are passed through. -/
theorem C8_pointer_kind_mapping :
    ∀ (assoc : List (Nat × String × Nat)) (self : Nat) (e : MouseEvt) (w : Nat),
      self ≠ 0 → getAssociatedObject assoc self ("windowPtr") = some w → w ≠ 0 →
      (tahoeViewMouseDownImpl assoc self (some e) =
        ([Route.mouse w 0 (normButton e.buttonNumber) e.x e.y e.modifierFlags], [])) ∧
      (tahoeViewMouseUpImpl assoc self (some e) =
        ([Route.mouse w 1 (normButton e.buttonNumber) e.x e.y e.modifierFlags], [])) ∧
      (tahoeViewMouseMovedImpl assoc self (some e) =
        ([Route.mouse w 2 0 e.x e.y e.modifierFlags], [])) ∧
      (tahoeViewMouseDraggedImpl assoc self (some e) =
        ([Route.mouse w 3 (normButton e.buttonNumber) e.x e.y e.modifierFlags], [])) ∧
      (∀ b : Int, (b < 0 ∨ 2 < b) → normButton b = 3) ∧
      (∀ b : Int, 0 ≤ b → b ≤ 2 → normButton b = b.toNat) := by
  intro assoc self e w hs hget hw
  refine ⟨?_, ?_, ?_, ?_, ?_, ?_⟩
  · simp [tahoeViewMouseDownImpl, hs, hget, hw]
  · simp [tahoeViewMouseUpImpl, hs, hget, hw]
  · simp [tahoeViewMouseMovedImpl, hs, hget, hw]
  · simp [tahoeViewMouseDraggedImpl, hs, hget, hw]
  · intro b hb
    unfold normButton
    rw [if_pos hb]
  · intro b hb1 hb2
    unfold normButton
    rw [if_neg]
    omega

/-- C8 witness: on an instance with token 9, a press with button ordinal 7
routes kind 0 with the button normalized to 3, and a move routes kind 2
with button 0. -/
theorem C8_pointer_kind_mapping_witness :
    (tahoeViewMouseDownImpl [(5, ("windowPtr"), 9)] 5 (some ⟨7, 10, 20, 4⟩) =
      ([Route.mouse 9 0 (normButton 7) 10 20 4], [])) ∧
    (tahoeViewMouseUpImpl [(5, ("windowPtr"), 9)] 5 (some ⟨7, 10, 20, 4⟩) =
      ([Route.mouse 9 1 (normButton 7) 10 20 4], [])) ∧
    (tahoeViewMouseMovedImpl [(5, ("windowPtr"), 9)] 5 (some ⟨7, 10, 20, 4⟩) =
      ([Route.mouse 9 2 0 10 20 4], [])) ∧
    (tahoeViewMouseDraggedImpl [(5, ("windowPtr"), 9)] 5 (some ⟨7, 10, 20, 4⟩) =
      ([Route.mouse 9 3 (normButton 7) 10 20 4], [])) ∧
    (∀ b : Int, (b < 0 ∨ 2 < b) → normButton b = 3) ∧
    (∀ b : Int, 0 ≤ b → b ≤ 2 → normButton b = b.toNat) :=
  C8_pointer_kind_mapping [(5, ("windowPtr"), 9)] 5 ⟨7, 10, 20, 4⟩ 9
    (by decide) (by decide) (by decide)

/-- C9: a valid resize notification on an instance with a nonzero token
routes exactly one resize carrying the width and height of the content
view frame, not those of the window frame. -/
theorem C9_resize_routes_content_frame :
    ∀ (assoc : List (Nat × String × Nat)) (self : Nat) (t : Nat) (wf cf : NSRect),
      self ≠ 0 → getAssociatedObject assoc self ("windowPtr") = some t → t ≠ 0 →
      windowDidResizeImpl assoc self (some ⟨some ⟨wf, some ⟨cf⟩⟩⟩) =
        ([Route.resize t cf.width cf.height], []) := by
  intro assoc self t wf cf hs hget ht
  simp [windowDidResizeImpl, hs, hget, ht]

/-- C9 witness: with token 7, a window frame of 1000 by 700 and a content
view frame of 800 by 600, exactly route_resize(7, 800, 600) is invoked. -/
theorem C9_resize_routes_content_frame_witness :
    windowDidResizeImpl [(5, ("windowPtr"), 7)] 5
        (some ⟨some ⟨⟨0, 0, 1000, 700⟩, some ⟨⟨0, 0, 800, 600⟩⟩⟩⟩) =
      ([Route.resize 7 800 600], []) :=
  C9_resize_routes_content_frame [(5, ("windowPtr"), 7)] 5 7
    ⟨0, 0, 1000, 700⟩ ⟨0, 0, 800, 600⟩ (by decide) (by decide) (by decide)
